import Mathlib

/-!
# Verification of the pyddp protocol engine

A shallow embedding of `src/ddp.py` (message model, pod codec, message
router, filters, connection construction, and the result future) together
with theorems settling the specification's claims about it.

Conventions of the embedding:
* Python/JSON values are modelled by `Ddp.Value`; Python `None` is
  `Value.null`, so a message field is "absent" exactly when it stores
  `Value.null`, mirroring the source's `x is not None` presence tests.
* A pod (the generic wire mapping) is an ordered association list
  `List (String × Value)`; `pod[k]` is `podIndex` (raising `KeyError`) and
  `pod.get(k)` is `podGet` (yielding `null` when absent).
* Fallible Python code (KeyError, ValueError, AttributeError, TypeError,
  NameError) is modelled with `Except Ddp.Err`.
-/

namespace Ddp

/-! ## Values -/

mutual

/-- A Python/JSON value as carried in messages and pods. `null` doubles as
Python `None`, which the source also uses to mark an absent optional field. -/
inductive Value where
  | null : Value
  | bool (b : Bool) : Value
  | num (n : Int) : Value
  | str (s : String) : Value
  | arr (elems : ValueList) : Value
  | obj (entries : ValueObj) : Value
  deriving DecidableEq

/-- A list of values (a Python list / JSON array). -/
inductive ValueList where
  | nil : ValueList
  | cons (v : Value) (rest : ValueList) : ValueList
  deriving DecidableEq

/-- String-keyed entries (a Python dict / JSON object used as plain data). -/
inductive ValueObj where
  | nil : ValueObj
  | cons (k : String) (v : Value) (rest : ValueObj) : ValueObj
  deriving DecidableEq

end

/-- Convert an embedded value list to a Lean list. -/
def ValueList.toList : ValueList → List Value
  | .nil => []
  | .cons v rest => v :: rest.toList

/-- Convert a Lean list of values to an embedded value list. -/
def ValueList.ofList : List Value → ValueList
  | [] => .nil
  | v :: rest => .cons v (ofList rest)

/-! ## Errors

Python exceptions raised by the embedded code. `KeyError` carries the key
object (a value for dict subscripts, the looked-up discriminant for the
factory tables); the aggregate pod factories are keyed by the concrete
class, so their `KeyError` carries the class name. -/

inductive Err where
  | keyError (k : Value) : Err
  | typeKeyError (typeName : String) : Err
  | valueError (msg : String) : Err
  | attributeError (msg : String) : Err
  | typeError : Err
  | nameError (n : String) : Err
  deriving DecidableEq

/-! ## Pods -/

/-- The generic ordered key→value wire mapping. -/
abbrev Pod := List (String × Value)

/-- First-match association lookup (Python dict lookup; the pods built by
this module never repeat a key). -/
def podLookup : Pod → String → Option Value
  | [], _ => none
  | (k', v) :: rest, k => if k' = k then some v else podLookup rest k

/-- `pod[k]`: raises `KeyError(k)` when the key is absent. -/
def podIndex (p : Pod) (k : String) : Except Err Value :=
  match podLookup p k with
  | some v => .ok v
  | none => .error (.keyError (.str k))

/-- `pod.get(k)`: yields `None` when the key is absent. -/
def podGet (p : Pod) (k : String) : Value :=
  (podLookup p k).getD .null

/-- `k in pod`. -/
def podHasKey (p : Pod) (k : String) : Bool :=
  (podLookup p k).isSome

/-- The keys of a pod, in order. -/
def podKeys (p : Pod) : List String := p.map Prod.fst

/-- A pod whose keys are pairwise distinct (every Python dict is). -/
def NodupKeys (p : Pod) : Prop := (podKeys p).Nodup

/-! ## Utilities (`ddp.py` lines 19–23) -/

/-- `exists(obj)`: `obj is not None`. -/
def pyExists (v : Value) : Bool := v ≠ .null

/-- `nexists(iterable)`: how many elements are not `None`. -/
def nexists (l : List Value) : Nat := l.countP pyExists

/-! ## Client messages (`ddp.py` lines 36–217)

Each class is a structure over its stored (post-`__init__`) fields; an
optional field stores `null` when absent. Structural equality of the
structure is exactly the source's field-by-field `__eq__`. -/

structure ConnectMessage where
  _version : Value
  _support : Value
  _session : Value
  deriving DecidableEq

/-- `ConnectMessage.__init__`: when `support` is given it is copied, the
preferred `version` is removed from it (Python `list.remove`: first
occurrence), and an empty result is stored as `None`. A `support` that is
neither a sequence nor `None` is rejected (Python would raise `TypeError`
on non-iterables; iterables other than JSON arrays are outside this value
universe). -/
def ConnectMessage.init (version support session : Value) : Except Err ConnectMessage :=
  match support with
  | .null => .ok ⟨version, .null, session⟩
  | .arr vl =>
      let l := vl.toList
      let l := if version ∈ l then l.erase version else l
      .ok ⟨version, if l = [] then .null else .arr (.ofList l), session⟩
  | _ => .error .typeError

def ConnectMessage.version (m : ConnectMessage) : Value := m._version

def ConnectMessage.has_support (m : ConnectMessage) : Bool := m._support ≠ .null

def ConnectMessage.has_session (m : ConnectMessage) : Bool := m._session ≠ .null

def ConnectMessage.support (m : ConnectMessage) : Except Err Value :=
  if m.has_support then .ok m._support
  else .error (.attributeError "connect message has no `support` field")

def ConnectMessage.session (m : ConnectMessage) : Except Err Value :=
  if m.has_session then .ok m._session
  else .error (.attributeError "connect message has no `session` field")

structure MethodMessage where
  _id : Value
  _method : Value
  _params : Value
  deriving DecidableEq

def MethodMessage.id_ (m : MethodMessage) : Value := m._id

def MethodMessage.method (m : MethodMessage) : Value := m._method

/-- `MethodMessage.params` returns `copy(self._params)` (a fresh shallow
copy; identical as a value). -/
def MethodMessage.params (m : MethodMessage) : Value := m._params

structure SubMessage where
  _id : Value
  _name : Value
  _params : Value
  deriving DecidableEq

def SubMessage.id_ (m : SubMessage) : Value := m._id

def SubMessage.name (m : SubMessage) : Value := m._name

def SubMessage.has_params (m : SubMessage) : Bool := m._params ≠ .null

def SubMessage.params (m : SubMessage) : Except Err Value :=
  if m.has_params then .ok m._params
  else .error (.attributeError "sub message has no `params` field")

structure UnsubMessage where
  _id : Value
  deriving DecidableEq

def UnsubMessage.id_ (m : UnsubMessage) : Value := m._id

/-! ## Server messages (`ddp.py` lines 222–674) -/

structure AddedMessage where
  _collection : Value
  _id : Value
  _fields : Value
  deriving DecidableEq

def AddedMessage.has_fields (m : AddedMessage) : Bool := m._fields ≠ .null

def AddedMessage.fields (m : AddedMessage) : Except Err Value :=
  if m.has_fields then .ok m._fields
  else .error (.attributeError "added message has no `added` field")

structure AddedBeforeMessage where
  _collection : Value
  _id : Value
  _before : Value
  _fields : Value
  deriving DecidableEq

def AddedBeforeMessage.has_fields (m : AddedBeforeMessage) : Bool := m._fields ≠ .null

def AddedBeforeMessage.fields (m : AddedBeforeMessage) : Except Err Value :=
  if m.has_fields then .ok m._fields
  else .error (.attributeError "added before message has no `fields` field")

structure ChangedMessage where
  _collection : Value
  _id : Value
  _cleared : Value
  _fields : Value
  deriving DecidableEq

def ChangedMessage.has_cleared (m : ChangedMessage) : Bool := m._cleared ≠ .null

def ChangedMessage.has_fields (m : ChangedMessage) : Bool := m._fields ≠ .null

def ChangedMessage.cleared (m : ChangedMessage) : Except Err Value :=
  if m.has_cleared then .ok m._cleared
  else .error (.attributeError "changed message has no `cleared` field")

def ChangedMessage.fields (m : ChangedMessage) : Except Err Value :=
  if m.has_fields then .ok m._fields
  else .error (.attributeError "changed message has no `fields` field")

structure ConnectedMessage where
  _session : Value
  deriving DecidableEq

structure ErrorMessage where
  _reason : Value
  _offending_pod : Value
  deriving DecidableEq

structure FailedMessage where
  _version : Value
  deriving DecidableEq

structure MovedBeforeMessage where
  _collection : Value
  _id : Value
  _before : Value
  deriving DecidableEq

structure NosubMessage where
  _id : Value
  _error : Value
  deriving DecidableEq

def NosubMessage.has_error (m : NosubMessage) : Bool := m._error ≠ .null

def NosubMessage.error (m : NosubMessage) : Except Err Value :=
  if m.has_error then .ok m._error
  else .error (.attributeError "nosub message has no `error` field")

structure ReadyMessage where
  _subs : Value
  deriving DecidableEq

structure RemovedMessage where
  _collection : Value
  _id : Value
  deriving DecidableEq

structure ResultMessage where
  _id : Value
  _error : Value
  _result : Value
  deriving DecidableEq

/-- `ResultMessage.__init__`: raises `ValueError` unless exactly one of
`error`, `result` is given (`nexists([error, result]) != 1`). -/
def ResultMessage.init (id error result : Value) : Except Err ResultMessage :=
  if nexists [error, result] ≠ 1 then
    .error (.valueError "either error or result must be given")
  else
    .ok ⟨id, error, result⟩

def ResultMessage.has_error (m : ResultMessage) : Bool := m._error ≠ .null

def ResultMessage.has_result (m : ResultMessage) : Bool := m._result ≠ .null

def ResultMessage.error (m : ResultMessage) : Except Err Value :=
  if m.has_error then .ok m._error
  else .error (.attributeError "result message has no `error` field")

def ResultMessage.result (m : ResultMessage) : Except Err Value :=
  if m.has_result then .ok m._result
  else .error (.attributeError "result message has not `result` field")

structure UpdatedMessage where
  _methods : Value
  deriving DecidableEq

/-! ## Tagged unions

The source's class hierarchy: `ClientMessage` and `ServerMessage` group the
concrete classes; `Message` is their common root. The outbound aggregate
factories dispatch on the concrete class (`type(message)`). -/

inductive ClientMessage where
  | connect (m : ConnectMessage)
  | method (m : MethodMessage)
  | sub (m : SubMessage)
  | unsub (m : UnsubMessage)
  deriving DecidableEq

inductive ServerMessage where
  | added (m : AddedMessage)
  | addedBefore (m : AddedBeforeMessage)
  | changed (m : ChangedMessage)
  | connected (m : ConnectedMessage)
  | error (m : ErrorMessage)
  | failed (m : FailedMessage)
  | movedBefore (m : MovedBeforeMessage)
  | nosub (m : NosubMessage)
  | ready (m : ReadyMessage)
  | removed (m : RemovedMessage)
  | result (m : ResultMessage)
  | updated (m : UpdatedMessage)
  deriving DecidableEq

inductive Message where
  | client (m : ClientMessage)
  | server (m : ServerMessage)
  deriving DecidableEq

/-- The concrete Python class of a message (the key of the outbound
aggregate factories' dispatch tables). -/
def Message.typeName : Message → String
  | .client (.connect _) => "ConnectMessage"
  | .client (.method _) => "MethodMessage"
  | .client (.sub _) => "SubMessage"
  | .client (.unsub _) => "UnsubMessage"
  | .server (.added _) => "AddedMessage"
  | .server (.addedBefore _) => "AddedBeforeMessage"
  | .server (.changed _) => "ChangedMessage"
  | .server (.connected _) => "ConnectedMessage"
  | .server (.error _) => "ErrorMessage"
  | .server (.failed _) => "FailedMessage"
  | .server (.movedBefore _) => "MovedBeforeMessage"
  | .server (.nosub _) => "NosubMessage"
  | .server (.ready _) => "ReadyMessage"
  | .server (.removed _) => "RemovedMessage"
  | .server (.result _) => "ResultMessage"
  | .server (.updated _) => "UpdatedMessage"

/-! ## Client message factories (`ddp.py` lines 740–865)

`*MessageFactory.create` decodes a pod (required fields via `pod[k]`,
evaluated in the source's argument order, optional fields via
`pod.get(k)`); `Pod*MessageFactory.create` encodes a message, inserting the
discriminant first and optional keys only when the field is present. The
message-constant strings (`MSG_CONNECT` etc., lines 682–699) appear
inline. -/

def ConnectMessageFactory.create (pod : Pod) : Except Err ClientMessage := do
  let v ← podIndex pod "version"
  let m ← ConnectMessage.init v (podGet pod "support") (podGet pod "session")
  return .connect m

def PodConnectMessageFactory.create (m : ConnectMessage) : Pod :=
  [("msg", .str "connect"), ("version", m._version)]
    ++ (if m.has_support then [("support", m._support)] else [])
    ++ (if m.has_session then [("session", m._session)] else [])

def MethodMessageFactory.create (pod : Pod) : Except Err ClientMessage := do
  let i ← podIndex pod "id"
  let me ← podIndex pod "method"
  let pa ← podIndex pod "params"
  return .method ⟨i, me, pa⟩

def PodMethodMessageFactory.create (m : MethodMessage) : Pod :=
  [("msg", .str "method"), ("id", m._id), ("method", m._method), ("params", m._params)]

def SubMessageFactory.create (pod : Pod) : Except Err ClientMessage := do
  let i ← podIndex pod "id"
  let n ← podIndex pod "name"
  return .sub ⟨i, n, podGet pod "params"⟩

def PodSubMessageFactory.create (m : SubMessage) : Pod :=
  [("msg", .str "sub"), ("id", m._id), ("name", m._name)]
    ++ (if m.has_params then [("params", m._params)] else [])

def UnsubMessageFactory.create (pod : Pod) : Except Err ClientMessage := do
  let i ← podIndex pod "id"
  return .unsub ⟨i⟩

def PodUnsubMessageFactory.create (m : UnsubMessage) : Pod :=
  [("msg", .str "unsub"), ("id", m._id)]

/-! ## Server message factories (`ddp.py` lines 874–1147) -/

def AddedMessageFactory.create (pod : Pod) : Except Err ServerMessage := do
  let c ← podIndex pod "collection"
  let i ← podIndex pod "id"
  return .added ⟨c, i, podGet pod "fields"⟩

/-- Note the source inserts `id` before `collection` here (lines 888–893). -/
def PodAddedMessageFactory.create (m : AddedMessage) : Pod :=
  [("msg", .str "added"), ("id", m._id), ("collection", m._collection)]
    ++ (if m.has_fields then [("fields", m._fields)] else [])

def AddedBeforeMessageFactory.create (pod : Pod) : Except Err ServerMessage := do
  let c ← podIndex pod "collection"
  let i ← podIndex pod "id"
  let b ← podIndex pod "before"
  return .addedBefore ⟨c, i, b, podGet pod "fields"⟩

def PodAddedBeforeMessageFactory.create (m : AddedBeforeMessage) : Pod :=
  [("msg", .str "addedBefore"), ("collection", m._collection), ("id", m._id),
   ("before", m._before)]
    ++ (if m.has_fields then [("fields", m._fields)] else [])

def ChangedMessageFactory.create (pod : Pod) : Except Err ServerMessage := do
  let c ← podIndex pod "collection"
  let i ← podIndex pod "id"
  return .changed ⟨c, i, podGet pod "cleared", podGet pod "fields"⟩

def PodChangedMessageFactory.create (m : ChangedMessage) : Pod :=
  [("msg", .str "changed"), ("collection", m._collection), ("id", m._id)]
    ++ (if m.has_cleared then [("cleared", m._cleared)] else [])
    ++ (if m.has_fields then [("fields", m._fields)] else [])

def ConnectedMessageFactory.create (pod : Pod) : Except Err ServerMessage := do
  let s ← podIndex pod "session"
  return .connected ⟨s⟩

def PodConnectedMessageFactory.create (m : ConnectedMessage) : Pod :=
  [("msg", .str "connected"), ("session", m._session)]

def ErrorMessageFactory.create (pod : Pod) : Except Err ServerMessage := do
  let r ← podIndex pod "reason"
  let o ← podIndex pod "offendingMessage"
  return .error ⟨r, o⟩

def PodErrorMessageFactory.create (m : ErrorMessage) : Pod :=
  [("msg", .str "error"), ("reason", m._reason), ("offendingMessage", m._offending_pod)]

def FailedMessageFactory.create (pod : Pod) : Except Err ServerMessage := do
  let v ← podIndex pod "version"
  return .failed ⟨v⟩

def PodFailedMessageFactory.create (m : FailedMessage) : Pod :=
  [("msg", .str "failed"), ("version", m._version)]

def MovedBeforeMessageFactory.create (pod : Pod) : Except Err ServerMessage := do
  let c ← podIndex pod "collection"
  let i ← podIndex pod "id"
  let b ← podIndex pod "before"
  return .movedBefore ⟨c, i, b⟩

def PodMovedBeforeMessageFactory.create (m : MovedBeforeMessage) : Pod :=
  [("msg", .str "movedBefore"), ("collection", m._collection), ("id", m._id),
   ("before", m._before)]

def NosubMessageFactory.create (pod : Pod) : Except Err ServerMessage := do
  let i ← podIndex pod "id"
  return .nosub ⟨i, podGet pod "error"⟩

def PodNosubMessageFactory.create (m : NosubMessage) : Pod :=
  [("msg", .str "nosub"), ("id", m._id)]
    ++ (if m.has_error then [("error", m._error)] else [])

def ReadyMessageFactory.create (pod : Pod) : Except Err ServerMessage := do
  let s ← podIndex pod "subs"
  return .ready ⟨s⟩

def PodReadyMessageFactory.create (m : ReadyMessage) : Pod :=
  [("msg", .str "ready"), ("subs", m._subs)]

def RemoveMessageFactory.create (pod : Pod) : Except Err ServerMessage := do
  let c ← podIndex pod "collection"
  let i ← podIndex pod "id"
  return .removed ⟨c, i⟩

def PodRemovedMessageFactory.create (m : RemovedMessage) : Pod :=
  [("msg", .str "removed"), ("collection", m._collection), ("id", m._id)]

def ResultMessageFactory.create (pod : Pod) : Except Err ServerMessage := do
  let i ← podIndex pod "id"
  let m ← ResultMessage.init i (podGet pod "error") (podGet pod "result")
  return .result m

def PodResultMessageFactory.create (m : ResultMessage) : Pod :=
  [("msg", .str "result"), ("id", m._id)]
    ++ (if m.has_error then [("error", m._error)] else [])
    ++ (if m.has_result then [("result", m._result)] else [])

def UpdatedMessageFactory.create (pod : Pod) : Except Err ServerMessage := do
  let ms ← podIndex pod "methods"
  return .updated ⟨ms⟩

def PodUpdatedMessageFactory.create (m : UpdatedMessage) : Pod :=
  [("msg", .str "updated"), ("methods", m._methods)]

/-! ## Aggregate factories (`ddp.py` lines 706–731, 840–865, 1151–1192)

`AggregateFactory` builds a dictionary `{F.SRC_TYPE: F()}` and dispatches by
key; a missing key is a `KeyError` carrying the key. Inbound aggregates are
keyed by `pod['msg']`, outbound aggregates by the concrete message class. -/

def assocLookup {α : Type} : List (Value × α) → Value → Option α
  | [], _ => none
  | (k, f) :: rest, d => if k = d then some f else assocLookup rest d

/-- The registration table of `ClientMessageFactory` (lines 840–851). -/
def clientFactoryTable : List (Value × (Pod → Except Err ClientMessage)) :=
  [(.str "connect", ConnectMessageFactory.create),
   (.str "method", MethodMessageFactory.create),
   (.str "sub", SubMessageFactory.create),
   (.str "unsub", UnsubMessageFactory.create)]

def ClientMessageFactory.create (pod : Pod) : Except Err ClientMessage := do
  let d ← podIndex pod "msg"
  match assocLookup clientFactoryTable d with
  | some f => f pod
  | none => .error (.keyError d)

/-- The registration table of `ServerMessageFactory` (lines 1151–1170). -/
def serverFactoryTable : List (Value × (Pod → Except Err ServerMessage)) :=
  [(.str "added", AddedMessageFactory.create),
   (.str "addedBefore", AddedBeforeMessageFactory.create),
   (.str "connected", ConnectedMessageFactory.create),
   (.str "changed", ChangedMessageFactory.create),
   (.str "error", ErrorMessageFactory.create),
   (.str "failed", FailedMessageFactory.create),
   (.str "movedBefore", MovedBeforeMessageFactory.create),
   (.str "nosub", NosubMessageFactory.create),
   (.str "ready", ReadyMessageFactory.create),
   (.str "removed", RemoveMessageFactory.create),
   (.str "result", ResultMessageFactory.create),
   (.str "updated", UpdatedMessageFactory.create)]

def ServerMessageFactory.create (pod : Pod) : Except Err ServerMessage := do
  let d ← podIndex pod "msg"
  match assocLookup serverFactoryTable d with
  | some f => f pod
  | none => .error (.keyError d)

/-- The outbound client aggregate restricted to its own family (total on
`ClientMessage`; the class-keyed dictionary dispatch becomes a match on the
concrete variant). -/
def PodClientMessageFactory.createC : ClientMessage → Pod
  | .connect m => PodConnectMessageFactory.create m
  | .method m => PodMethodMessageFactory.create m
  | .sub m => PodSubMessageFactory.create m
  | .unsub m => PodUnsubMessageFactory.create m

/-- `PodClientMessageFactory.create` on the full message hierarchy: a
message whose class is not registered raises `KeyError` on the class. -/
def PodClientMessageFactory.create (msg : Message) : Except Err Pod :=
  match msg with
  | .client m => .ok (PodClientMessageFactory.createC m)
  | .server _ => .error (.typeKeyError msg.typeName)

/-- The outbound server aggregate restricted to its own family (the source
class is named `PodServerMessageFactroy`, sic). -/
def PodServerMessageFactroy.createS : ServerMessage → Pod
  | .added m => PodAddedMessageFactory.create m
  | .addedBefore m => PodAddedBeforeMessageFactory.create m
  | .changed m => PodChangedMessageFactory.create m
  | .connected m => PodConnectedMessageFactory.create m
  | .error m => PodErrorMessageFactory.create m
  | .failed m => PodFailedMessageFactory.create m
  | .movedBefore m => PodMovedBeforeMessageFactory.create m
  | .nosub m => PodNosubMessageFactory.create m
  | .ready m => PodReadyMessageFactory.create m
  | .removed m => PodRemovedMessageFactory.create m
  | .result m => PodResultMessageFactory.create m
  | .updated m => PodUpdatedMessageFactory.create m

def PodServerMessageFactroy.create (msg : Message) : Except Err Pod :=
  match msg with
  | .server m => .ok (PodServerMessageFactroy.createS m)
  | .client _ => .error (.typeKeyError msg.typeName)

/-! ## Message filters (`ddp.py` lines 1199–1210) -/

/-- `PodServerMessageFilter.accept`: `'msg' in pod`. -/
def PodServerMessageFilter.accept (pod : Pod) : Bool := podHasKey pod "msg"

/-- `MessageWebSocketClient._received_message` (lines 1321–1326) after the
external JSON parse: the pod passes the server-message filter, is decoded by
`ServerMessageFactory`, and the typed message is handed to the registered
consumer callback; a rejected pod is dropped. The result records what (if
anything) was delivered to the callback. -/
def MessageWebSocketClient.receivedMessage (pod : Pod) :
    Except Err (Option ServerMessage) :=
  if PodServerMessageFilter.accept pod then do
    let m ← ServerMessageFactory.create pod
    return some m
  else
    return none

/-! ## The packaged `ChangedMessage`
(`ddp/message/server/changed_message.py`)

Unlike the `ChangedMessage` in `ddp.py`, its `cleared`/`fields` accessors
return `copy(...)` of the stored value without a presence test, so an
absent field reads as `None`. -/

structure ChangedMessagePkg where
  _collection : Value
  _id : Value
  _cleared : Value
  _fields : Value
  deriving DecidableEq

def ChangedMessagePkg.collection (m : ChangedMessagePkg) : Value := m._collection

def ChangedMessagePkg.id (m : ChangedMessagePkg) : Value := m._id

/-- `return copy(self._cleared)` — no presence check. -/
def ChangedMessagePkg.cleared (m : ChangedMessagePkg) : Value := m._cleared

/-- `return copy(self._fields)` — no presence check. -/
def ChangedMessagePkg.fields (m : ChangedMessagePkg) : Value := m._fields

/-- `has_cleared` calls `exists(...)`, a name neither defined nor imported
in `changed_message.py`: `NameError` at call time. -/
def ChangedMessagePkg.has_cleared (_ : ChangedMessagePkg) : Except Err Bool :=
  .error (.nameError "exists")

/-- `has_fields` likewise calls the undefined `exists`. -/
def ChangedMessagePkg.has_fields (_ : ChangedMessagePkg) : Except Err Bool :=
  .error (.nameError "exists")

/-! ## Future (`ddp.py` lines 1406–1422)

`Future.get(timeout)` runs `while not self._is_set: self._cond.wait(timeout=timeout)`
and then returns `self._value`. Each `Condition.wait(timeout)` either wakes
on a notify or returns after the timeout expires — and in the latter case
the loop simply tests `_is_set` and waits again. We model an execution of
`get` on a future that no concurrent `set` touches by the number of times
`wait` returns: `getAttempt n` is the loop's outcome after `n` wait
returns, `none` standing for "still inside the loop". -/

structure Future where
  _value : Value
  _is_set : Bool
  deriving DecidableEq

/-- `Future.__init__`. -/
def Future.init : Future := ⟨.null, false⟩

/-- `Future.set(value)`. -/
def Future.set (_ : Future) (value : Value) : Future := ⟨value, true⟩

/-- The observable outcome of `Future.get` on an unchanging future after at
most `n` returns from `Condition.wait`: `some v` once the loop exits and
`self._value` is returned, `none` while the loop continues. The loop body
contains no timeout exit, so expired waits only re-enter the loop. -/
def Future.getAttempt (f : Future) : Nat → Option Value
  | 0 => if f._is_set then some f._value else none
  | n + 1 => if f._is_set then some f._value else f.getAttempt n

/-! ## DdpConnection (`ddp.py` lines 1344–1378)

`DdpConnection.__init__` stores the connect message and then builds a
`MessageWebSocketClient`, passing `closed_callback=closed_callback` — but
`closed_callback` is neither a parameter, nor a local, nor a module-level
name, so evaluating the argument raises `NameError` on every call. The
embedding resolves the name against the scopes Python would search. -/

/-- Names bound at the top level of the `ddp` module (its imports,
functions, classes, and `MSG_*` constants). -/
def ddpModuleGlobals : List String :=
  ["contextmanager", "copy", "urlunparse", "json", "time", "threading",
   "WebSocketClient", "exists", "nexists",
   "Message", "ClientMessage", "ConnectMessage", "MethodMessage",
   "SubMessage", "UnsubMessage", "ServerMessage", "AddedMessage",
   "AddedBeforeMessage", "ChangedMessage", "ConnectedMessage",
   "ErrorMessage", "FailedMessage", "MovedBeforeMessage", "NosubMessage",
   "ReadyMessage", "RemovedMessage", "ResultMessage", "UpdatedMessage",
   "MSG_CONNECT", "MSG_METHOD", "MSG_SUB", "MSG_UNSUB",
   "MSG_ADDED", "MSG_ADDED_BEFORE", "MSG_CHANGED", "MSG_CONNECTED",
   "MSG_ERROR", "MSG_FAILED", "MSG_MOVED_BEFORE", "MSG_NOSUB",
   "MSG_READY", "MSG_REMOVED", "MSG_RESULT", "MSG_UPDATED",
   "AggregateFactory", "AggregrateMessageFactory",
   "AggregratePodMessageFactory",
   "ConnectMessageFactory", "PodConnectMessageFactory",
   "MethodMessageFactory", "PodMethodMessageFactory",
   "SubMessageFactory", "PodSubMessageFactory",
   "UnsubMessageFactory", "PodUnsubMessageFactory",
   "ClientMessageFactory", "PodClientMessageFactory",
   "AddedMessageFactory", "PodAddedMessageFactory",
   "AddedBeforeMessageFactory", "PodAddedBeforeMessageFactory",
   "ChangedMessageFactory", "PodChangedMessageFactory",
   "ConnectedMessageFactory", "PodConnectedMessageFactory",
   "ErrorMessageFactory", "PodErrorMessageFactory",
   "FailedMessageFactory", "PodFailedMessageFactory",
   "MovedBeforeMessageFactory", "PodMovedBeforeMessageFactory",
   "NosubMessageFactory", "PodNosubMessageFactory",
   "ReadyMessageFactory", "PodReadyMessageFactory",
   "RemoveMessageFactory", "PodRemovedMessageFactory",
   "ResultMessageFactory", "PodResultMessageFactory",
   "UpdatedMessageFactory", "PodUpdatedMessageFactory",
   "ServerMessageFactory", "PodServerMessageFactroy",
   "MessageFilter", "PodClientMessageFilter", "PodServerMessageFilter",
   "PodMessageParser", "PodMessageSerializer",
   "_StrategyWebSocketClient", "StrategyWebSocketClient",
   "ManagedWebSocketClient", "WebSocketClientManager", "ServerUrl",
   "MessageWebSocketClient", "DdpConnection", "Timeout", "Future"]

/-- The names bound inside `DdpConnection.__init__` when the
`MessageWebSocketClient(...)` argument list is evaluated: the method's
parameters (no local assignment precedes the call — line 1355 assigns an
attribute, not a local). -/
def ddpConnectionInitScope : List String :=
  ["self", "url", "connect_message", "on_connected", "on_disconnected",
   "on_failed"]

/-- Resolve a name the way `DdpConnection.__init__` would: locals, then
module globals. -/
def ddpConnectionInitResolve (n : String) : Except Err Unit :=
  if n ∈ ddpConnectionInitScope ∨ n ∈ ddpModuleGlobals then .ok ()
  else .error (.nameError n)

/-- The session object `__init__` would produce if it completed. -/
structure DdpConnection where
  _connect_message : Message
  deriving DecidableEq

/-- `DdpConnection.__init__`: stores the connect message, then evaluates
the `MessageWebSocketClient(...)` call whose keyword arguments mention
`self` (twice, for the two bound-method callbacks) and the free name
`closed_callback` (line 1361). -/
def DdpConnection.init (connect_message : Message) : Except Err DdpConnection := do
  ddpConnectionInitResolve "self"
  ddpConnectionInitResolve "closed_callback"
  return ⟨connect_message⟩

/-- The attributes a `DdpConnection` instance would own after a completed
`__init__` (the only `self.x = ...` assignments in the class body, lines
1355 and 1357). -/
def ddpConnectionInstanceAttrs : List String := ["_connect_message", "_socket"]

/-- The attributes available on the `DdpConnection` class itself (its
methods). -/
def ddpConnectionClassAttrs : List String :=
  ["__init__", "_opened", "_received_message", "connect", "send", "close"]

/-- `DdpConnection._received_message` (lines 1368–1369) reads
`self._received_message_callback`, resolved against the instance and class
attributes; an unknown attribute raises `AttributeError`. -/
def DdpConnection.receivedMessageHandler (_ : DdpConnection) (message : Message) :
    Except Err Message :=
  if "_received_message_callback" ∈ ddpConnectionInstanceAttrs
      ∨ "_received_message_callback" ∈ ddpConnectionClassAttrs then
    .ok message
  else
    .error (.attributeError "_received_message_callback")

/-! ## Reference semantics of collection-valued fields

Python lists are mutable heap objects shared by reference; whether a
constructor or accessor copies decides whether a caller's mutation reaches
the message. The heap holds list cells; a message field of sequence type
stores a cell reference (or `none` for Python `None`). `Heap.write` is a
caller mutating a list in place (e.g. `lst.append`, `del lst[:]`).

The three classes the claim cites are modelled: `ConnectMessage`
(constructor `list(support)` copies, accessor `return self._support` does
not), `SubMessage` (constructor `copy(params)` copies, accessor
`return self._params` does not), and `MethodMessage` (constructor and
accessor both copy). -/

abbrev Ref := Nat

abbrev Heap := List (List Value)

def Heap.alloc (h : Heap) (l : List Value) : Heap × Ref := (h ++ [l], h.length)

def Heap.read (h : Heap) (r : Ref) : List Value := h.getD r []

def Heap.write (h : Heap) (r : Ref) (l : List Value) : Heap := h.set r l

structure ConnectMessageH where
  _version : Value
  _support : Option Ref
  _session : Value
  deriving DecidableEq

/-- `ConnectMessage.__init__` with a heap: `support = list(support)`
allocates a copy; the preferred version is removed from the copy; an empty
copy is replaced by `None`. -/
def ConnectMessageH.init (h : Heap) (version : Value) (support : Option Ref)
    (session : Value) : Heap × ConnectMessageH :=
  match support with
  | none => (h, ⟨version, none, session⟩)
  | some r =>
      let l := h.read r
      let l := if version ∈ l then l.erase version else l
      let (h', r') := h.alloc l
      if l = [] then (h', ⟨version, none, session⟩)
      else (h', ⟨version, some r', session⟩)

/-- `ConnectMessage.support` returns `self._support` itself — the internal
list reference, not a copy (line 92). -/
def ConnectMessageH.support (m : ConnectMessageH) : Except Err Ref :=
  match m._support with
  | some r => .ok r
  | none => .error (.attributeError "connect message has no `support` field")

/-- The message's observable support contents under a heap. -/
def ConnectMessageH.supportValue (h : Heap) (m : ConnectMessageH) :
    Option (List Value) :=
  m._support.map h.read

structure SubMessageH where
  _id : Value
  _name : Value
  _params : Option Ref
  deriving DecidableEq

/-- `SubMessage.__init__`: `self._params = copy(params)` (`copy(None)` is
`None`; otherwise a fresh shallow copy is allocated). -/
def SubMessageH.init (h : Heap) (id name : Value) (params : Option Ref) :
    Heap × SubMessageH :=
  match params with
  | none => (h, ⟨id, name, none⟩)
  | some r =>
      let (h', r') := h.alloc (h.read r)
      (h', ⟨id, name, some r'⟩)

/-- `SubMessage.params` returns `self._params` itself — the internal
reference, not a copy (line 192). -/
def SubMessageH.params (m : SubMessageH) : Except Err Ref :=
  match m._params with
  | some r => .ok r
  | none => .error (.attributeError "sub message has no `params` field")

def SubMessageH.paramsValue (h : Heap) (m : SubMessageH) : Option (List Value) :=
  m._params.map h.read

structure MethodMessageH where
  _id : Value
  _method : Value
  _params : Option Ref
  deriving DecidableEq

/-- `MethodMessage.__init__`: `self._params = copy(params)`. -/
def MethodMessageH.init (h : Heap) (id method : Value) (params : Option Ref) :
    Heap × MethodMessageH :=
  match params with
  | none => (h, ⟨id, method, none⟩)
  | some r =>
      let (h', r') := h.alloc (h.read r)
      (h', ⟨id, method, some r'⟩)

/-- `MethodMessage.params` returns `copy(self._params)` — a freshly
allocated copy (line 147). -/
def MethodMessageH.params (h : Heap) (m : MethodMessageH) : Heap × Option Ref :=
  match m._params with
  | none => (h, none)
  | some r =>
      let (h', r') := h.alloc (h.read r)
      (h', some r')

def MethodMessageH.paramsValue (h : Heap) (m : MethodMessageH) :
    Option (List Value) :=
  m._params.map h.read

/-- Python `copy(x)` on an optional collection: `copy(None)` is `None`,
otherwise a fresh cell holding the same contents is allocated. A heap cell
stands for any mutable collection (list or dict) shared by reference. -/
def copyCell (h : Heap) (c : Option Ref) : Heap × Option Ref :=
  match c with
  | none => (h, none)
  | some r =>
      let (h', r') := h.alloc (h.read r)
      (h', some r')

structure AddedMessageH where
  _collection : Value
  _id : Value
  _fields : Option Ref
  deriving DecidableEq

/-- `AddedMessage.__init__`: `self._fields = copy(fields)` (line 230). -/
def AddedMessageH.init (h : Heap) (collection id : Value) (fields : Option Ref) :
    Heap × AddedMessageH :=
  let (h', f') := copyCell h fields
  (h', ⟨collection, id, f'⟩)

/-- `AddedMessage.fields`: presence check, then `return copy(self._fields)`
(lines 263–267) — a fresh copy. -/
def AddedMessageH.fieldsAcc (h : Heap) (m : AddedMessageH) : Except Err (Heap × Ref) :=
  match m._fields with
  | none => .error (.attributeError "added message has no `added` field")
  | some r =>
      let (h', r') := h.alloc (h.read r)
      .ok (h', r')

def AddedMessageH.fieldsValue (h : Heap) (m : AddedMessageH) : Option (List Value) :=
  m._fields.map h.read

structure AddedBeforeMessageH where
  _collection : Value
  _id : Value
  _before : Value
  _fields : Option Ref
  deriving DecidableEq

/-- `AddedBeforeMessage.__init__`: `self._fields = copy(fields)` (line 278). -/
def AddedBeforeMessageH.init (h : Heap) (collection id before : Value)
    (fields : Option Ref) : Heap × AddedBeforeMessageH :=
  let (h', f') := copyCell h fields
  (h', ⟨collection, id, before, f'⟩)

/-- `AddedBeforeMessage.fields`: presence check, then
`return copy(self._fields)` (lines 318–322). -/
def AddedBeforeMessageH.fieldsAcc (h : Heap) (m : AddedBeforeMessageH) :
    Except Err (Heap × Ref) :=
  match m._fields with
  | none => .error (.attributeError "added before message has no `fields` field")
  | some r =>
      let (h', r') := h.alloc (h.read r)
      .ok (h', r')

def AddedBeforeMessageH.fieldsValue (h : Heap) (m : AddedBeforeMessageH) :
    Option (List Value) :=
  m._fields.map h.read

structure ChangedMessageH where
  _collection : Value
  _id : Value
  _cleared : Option Ref
  _fields : Option Ref
  deriving DecidableEq

/-- `ChangedMessage.__init__` (ddp.py): `self._cleared = copy(cleared)` and
`self._fields = copy(fields)` (lines 332–333). -/
def ChangedMessageH.init (h : Heap) (collection id : Value)
    (cleared fields : Option Ref) : Heap × ChangedMessageH :=
  let (h1, c') := copyCell h cleared
  let (h2, f') := copyCell h1 fields
  (h2, ⟨collection, id, c', f'⟩)

/-- `ChangedMessage.cleared`: presence check, then
`return copy(self._cleared)` (lines 369–373). -/
def ChangedMessageH.clearedAcc (h : Heap) (m : ChangedMessageH) :
    Except Err (Heap × Ref) :=
  match m._cleared with
  | none => .error (.attributeError "changed message has no `cleared` field")
  | some r =>
      let (h', r') := h.alloc (h.read r)
      .ok (h', r')

/-- `ChangedMessage.fields`: presence check, then
`return copy(self._fields)` (lines 375–379). -/
def ChangedMessageH.fieldsAcc (h : Heap) (m : ChangedMessageH) :
    Except Err (Heap × Ref) :=
  match m._fields with
  | none => .error (.attributeError "changed message has no `fields` field")
  | some r =>
      let (h', r') := h.alloc (h.read r)
      .ok (h', r')

def ChangedMessageH.clearedValue (h : Heap) (m : ChangedMessageH) :
    Option (List Value) :=
  m._cleared.map h.read

def ChangedMessageH.fieldsValue (h : Heap) (m : ChangedMessageH) :
    Option (List Value) :=
  m._fields.map h.read

structure ReadyMessageH where
  _subs : Option Ref
  deriving DecidableEq

/-- `ReadyMessage.__init__`: `self._subs = copy(subs)` (line 547). -/
def ReadyMessageH.init (h : Heap) (subs : Option Ref) : Heap × ReadyMessageH :=
  let (h', s') := copyCell h subs
  (h', ⟨s'⟩)

/-- `ReadyMessage.subs`: `return copy(self._subs)` (line 563) — a fresh
copy, no presence check (the field is required). -/
def ReadyMessageH.subsAcc (h : Heap) (m : ReadyMessageH) : Heap × Option Ref :=
  copyCell h m._subs

def ReadyMessageH.subsValue (h : Heap) (m : ReadyMessageH) : Option (List Value) :=
  m._subs.map h.read

structure UpdatedMessageH where
  _methods : Option Ref
  deriving DecidableEq

/-- `UpdatedMessage.__init__`: `self._methods = copy(methods)` (line 658). -/
def UpdatedMessageH.init (h : Heap) (methods : Option Ref) : Heap × UpdatedMessageH :=
  let (h', ms') := copyCell h methods
  (h', ⟨ms'⟩)

/-- `UpdatedMessage.methods`: `return copy(self._methods)` (line 674). -/
def UpdatedMessageH.methodsAcc (h : Heap) (m : UpdatedMessageH) : Heap × Option Ref :=
  copyCell h m._methods

def UpdatedMessageH.methodsValue (h : Heap) (m : UpdatedMessageH) :
    Option (List Value) :=
  m._methods.map h.read

structure ErrorMessageH where
  _reason : Value
  _offending_pod : Option Ref
  deriving DecidableEq

/-- `ErrorMessage.__init__`: `self._offending_pod = offending_pod`
(line 412) — the caller's mapping is stored by reference, no copy. -/
def ErrorMessageH.init (reason : Value) (offending_pod : Option Ref) : ErrorMessageH :=
  ⟨reason, offending_pod⟩

/-- `ErrorMessage.offending_pod`: `return self._offending_pod` (line 440) —
the internal reference, no copy. -/
def ErrorMessageH.offendingPodAcc (m : ErrorMessageH) : Option Ref :=
  m._offending_pod

def ErrorMessageH.offendingPodValue (h : Heap) (m : ErrorMessageH) :
    Option (List Value) :=
  m._offending_pod.map h.read

structure NosubMessageH where
  _id : Value
  _error : Option Ref
  deriving DecidableEq

/-- `NosubMessage.__init__`: `self._error = error` (line 509) — stored by
reference, no copy. -/
def NosubMessageH.init (id : Value) (error : Option Ref) : NosubMessageH :=
  ⟨id, error⟩

/-- `NosubMessage.error`: presence check, then `return self._error`
(lines 536–539) — the internal reference, no copy. -/
def NosubMessageH.errorAcc (m : NosubMessageH) : Except Err Ref :=
  match m._error with
  | none => .error (.attributeError "nosub message has no `error` field")
  | some r => .ok r

def NosubMessageH.errorValue (h : Heap) (m : NosubMessageH) : Option (List Value) :=
  m._error.map h.read

structure ResultMessageH where
  _id : Value
  _error : Option Ref
  _result : Option Ref
  deriving DecidableEq

/-- `ResultMessage.__init__` with mapping-valued `error`/`result`: the
exactly-one check, then `self._error = error; self._result = result`
(lines 603–607) — both stored by reference, no copy. -/
def ResultMessageH.init (id : Value) (error result : Option Ref) :
    Except Err ResultMessageH :=
  if ([error, result].countP Option.isSome) ≠ 1 then
    .error (.valueError "either error or result must be given")
  else
    .ok ⟨id, error, result⟩

/-- `ResultMessage.error`: presence check, then `return self._error`
(lines 637–640) — the internal reference, no copy. -/
def ResultMessageH.errorAcc (m : ResultMessageH) : Except Err Ref :=
  match m._error with
  | none => .error (.attributeError "result message has no `error` field")
  | some r => .ok r

/-- `ResultMessage.result`: presence check, then `return self._result`
(lines 643–646). -/
def ResultMessageH.resultAcc (m : ResultMessageH) : Except Err Ref :=
  match m._result with
  | none => .error (.attributeError "result message has not `result` field")
  | some r => .ok r

def ResultMessageH.errorValue (h : Heap) (m : ResultMessageH) : Option (List Value) :=
  m._error.map h.read

/-! ## Constructible messages

The invariants that the smart constructors establish — with one exception:
when `support` holds the preferred version twice, `ConnectMessage.__init__`
removes only the first occurrence, so a constructed instance may still
carry the version inside `_support` (see the round-trip counterexample).
`Inv` is the reduced form that the codec round-trips. -/

/-- A `ConnectMessage` whose stored support is fully reduced: absent, or a
non-empty sequence no longer containing the preferred version. -/
def ConnectMessage.Inv (m : ConnectMessage) : Prop :=
  m._support = .null ∨
    ∃ vl : ValueList, m._support = .arr vl ∧ m._version ∉ vl.toList ∧ vl.toList ≠ []

def ClientMessage.Inv : ClientMessage → Prop
  | .connect m => ConnectMessage.Inv m
  | _ => True

/-- The `ResultMessage` construction invariant: exactly one of
`error`/`result` present. -/
def ResultMessage.Inv (m : ResultMessage) : Prop := m.has_error ≠ m.has_result

def ServerMessage.Inv : ServerMessage → Prop
  | .result m => m.Inv
  | _ => True

/-! ## Key order of encoded pods

`declarationOrderKeys` follows the specification's field table (§3): the
`msg` discriminant, the required fields in declaration order, then the
present optional fields in declaration order. `emittedKeyOrder` is the
order the source actually inserts keys in — identical except for `Added`,
whose factory emits `id` before `collection`. -/

def declarationOrderKeys : Message → List String
  | .client (.connect m) =>
      ["msg", "version"] ++ (if m.has_support then ["support"] else [])
        ++ (if m.has_session then ["session"] else [])
  | .client (.method _) => ["msg", "id", "method", "params"]
  | .client (.sub m) => ["msg", "id", "name"] ++ (if m.has_params then ["params"] else [])
  | .client (.unsub _) => ["msg", "id"]
  | .server (.added m) =>
      ["msg", "collection", "id"] ++ (if m.has_fields then ["fields"] else [])
  | .server (.addedBefore m) =>
      ["msg", "collection", "id", "before"] ++ (if m.has_fields then ["fields"] else [])
  | .server (.changed m) =>
      ["msg", "collection", "id"] ++ (if m.has_cleared then ["cleared"] else [])
        ++ (if m.has_fields then ["fields"] else [])
  | .server (.connected _) => ["msg", "session"]
  | .server (.error _) => ["msg", "reason", "offendingMessage"]
  | .server (.failed _) => ["msg", "version"]
  | .server (.movedBefore _) => ["msg", "collection", "id", "before"]
  | .server (.nosub m) => ["msg", "id"] ++ (if m.has_error then ["error"] else [])
  | .server (.ready _) => ["msg", "subs"]
  | .server (.removed _) => ["msg", "collection", "id"]
  | .server (.result m) =>
      ["msg", "id"] ++ (if m.has_error then ["error"] else [])
        ++ (if m.has_result then ["result"] else [])
  | .server (.updated _) => ["msg", "methods"]

/-- The key order of the pods the source emits: declaration order for every
variant except `Added`, where `id` precedes `collection`. -/
def emittedKeyOrder : Message → List String
  | .server (.added m) =>
      ["msg", "id", "collection"] ++ (if m.has_fields then ["fields"] else [])
  | msg => declarationOrderKeys msg

/-- The keys of the pod a message encodes to, in emission order. -/
def encodedKeys : Message → List String
  | .client m => podKeys (PodClientMessageFactory.createC m)
  | .server m => podKeys (PodServerMessageFactroy.createS m)

/-- The required keys each client decoder subscripts (`pod[k]`), in the
source's evaluation order; `[]` for unregistered discriminants. -/
def clientRequiredKeys : Value → List String
  | .str "connect" => ["version"]
  | .str "method" => ["id", "method", "params"]
  | .str "sub" => ["id", "name"]
  | .str "unsub" => ["id"]
  | _ => []

/-- The required keys each server decoder subscripts (`pod[k]`), in the
source's evaluation order; `[]` for unregistered discriminants. -/
def serverRequiredKeys : Value → List String
  | .str "added" => ["collection", "id"]
  | .str "addedBefore" => ["collection", "id", "before"]
  | .str "changed" => ["collection", "id"]
  | .str "connected" => ["session"]
  | .str "error" => ["reason", "offendingMessage"]
  | .str "failed" => ["version"]
  | .str "movedBefore" => ["collection", "id", "before"]
  | .str "nosub" => ["id"]
  | .str "ready" => ["subs"]
  | .str "removed" => ["collection", "id"]
  | .str "result" => ["id"]
  | .str "updated" => ["methods"]
  | _ => []

/-! ## Helper lemmas -/

theorem ValueList.toList_ofList (l : List Value) : (ValueList.ofList l).toList = l := by
  induction l with
  | nil => rfl
  | cons v rest ih => simp [ValueList.ofList, ValueList.toList, ih]

theorem ValueList.ofList_toList : ∀ l : ValueList, ValueList.ofList l.toList = l
  | .nil => rfl
  | .cons v rest => by
      simp [ValueList.ofList, ValueList.toList, ValueList.ofList_toList rest]

@[simp]
theorem except_bind_ok {α β : Type} (a : α) (f : α → Except Err β) :
    (Except.ok a >>= f) = f a := rfl

@[simp]
theorem except_bind_error {α β : Type} (e : Err) (f : α → Except Err β) :
    ((Except.error e : Except Err α) >>= f) = .error e := rfl

@[simp]
theorem except_pure_eq_ok {α : Type} (a : α) :
    (pure a : Except Err α) = .ok a := rfl

theorem NodupKeys.tail {x : String × Value} {p : Pod} (h : NodupKeys (x :: p)) :
    NodupKeys p := by
  unfold NodupKeys podKeys at h ⊢
  rw [List.map_cons] at h
  exact h.of_cons

/-- Looking a key up in a duplicate-free pod is invariant under reordering
of the pod's entries. -/
theorem podLookup_perm {p q : Pod} (h : List.Perm p q) :
    NodupKeys p → ∀ k, podLookup p k = podLookup q k := by
  induction h with
  | nil => intro _ _; rfl
  | cons x _ ih =>
      intro nd k
      obtain ⟨k', v⟩ := x
      simp only [podLookup]
      split
      · rfl
      · exact ih nd.tail k
  | swap x y l =>
      intro nd k
      obtain ⟨a, va⟩ := x
      obtain ⟨b, vb⟩ := y
      have hab : b ≠ a := by
        unfold NodupKeys podKeys at nd
        rw [List.map_cons, List.map_cons] at nd
        exact fun he => (List.nodup_cons.mp nd).1 (he ▸ List.mem_cons_self a _)
      simp only [podLookup]
      by_cases hb : b = k <;> by_cases ha : a = k <;> simp [hb, ha]
      exact absurd (ha ▸ hb) hab
  | trans h₁ h₂ ih₁ ih₂ =>
      intro nd k
      exact (ih₁ nd k).trans (ih₂ ((h₁.map Prod.fst).nodup nd) k)

theorem podIndex_congr {p q : Pod} (h : ∀ k, podLookup p k = podLookup q k) (k : String) :
    podIndex p k = podIndex q k := by
  simp [podIndex, h k]

theorem podGet_congr {p q : Pod} (h : ∀ k, podLookup p k = podLookup q k) (k : String) :
    podGet p k = podGet q k := by
  simp [podGet, h k]

set_option maxHeartbeats 2000000 in
/-- Decoding a server pod depends only on what its keys look up to. -/
theorem serverCreate_congr {p q : Pod} (h : ∀ k, podLookup p k = podLookup q k) :
    ServerMessageFactory.create p = ServerMessageFactory.create q := by
  have hI : ∀ k, podIndex p k = podIndex q k := podIndex_congr h
  have hG : ∀ k, podGet p k = podGet q k := podGet_congr h
  unfold ServerMessageFactory.create
  rw [hI "msg"]
  cases hm : podIndex q "msg" with
  | error e => rfl
  | ok d =>
      simp only [except_bind_ok]
      cases hLook : assocLookup serverFactoryTable d with
      | none => simp [hLook]
      | some f =>
          simp only [hLook]
          simp only [serverFactoryTable, assocLookup] at hLook
          split_ifs at hLook <;>
            (injection hLook with hf
             subst hf
             simp only [AddedMessageFactory.create, AddedBeforeMessageFactory.create,
               ConnectedMessageFactory.create, ChangedMessageFactory.create,
               ErrorMessageFactory.create, FailedMessageFactory.create,
               MovedBeforeMessageFactory.create, NosubMessageFactory.create,
               ReadyMessageFactory.create, RemoveMessageFactory.create,
               ResultMessageFactory.create, UpdatedMessageFactory.create, hI, hG])

set_option maxHeartbeats 2000000 in
/-- Decoding a client pod depends only on what its keys look up to. -/
theorem clientCreate_congr {p q : Pod} (h : ∀ k, podLookup p k = podLookup q k) :
    ClientMessageFactory.create p = ClientMessageFactory.create q := by
  have hI : ∀ k, podIndex p k = podIndex q k := podIndex_congr h
  have hG : ∀ k, podGet p k = podGet q k := podGet_congr h
  unfold ClientMessageFactory.create
  rw [hI "msg"]
  cases hm : podIndex q "msg" with
  | error e => rfl
  | ok d =>
      simp only [except_bind_ok]
      cases hLook : assocLookup clientFactoryTable d with
      | none => simp [hLook]
      | some f =>
          simp only [hLook]
          simp only [clientFactoryTable, assocLookup] at hLook
          split_ifs at hLook <;>
            (injection hLook with hf
             subst hf
             simp only [ConnectMessageFactory.create, MethodMessageFactory.create,
               SubMessageFactory.create, UnsubMessageFactory.create, hI, hG])

theorem ResultMessage.init_inv {id e r : Value} {m : ResultMessage}
    (h : ResultMessage.init id e r = .ok m) : m.Inv := by
  by_cases he : e = Value.null <;> by_cases hr : r = Value.null <;>
    simp [ResultMessage.init, nexists, pyExists, List.countP_cons, List.countP_nil,
      he, hr] at h <;>
    simp [ResultMessage.Inv, ResultMessage.has_error, ResultMessage.has_result,
      ← h, he, hr]

/-! ## Dispatch of the aggregate factories at each registered discriminant -/

theorem dispatch_connect :
    assocLookup clientFactoryTable (.str "connect") = some ConnectMessageFactory.create := rfl

theorem dispatch_method :
    assocLookup clientFactoryTable (.str "method") = some MethodMessageFactory.create := rfl

theorem dispatch_sub :
    assocLookup clientFactoryTable (.str "sub") = some SubMessageFactory.create := rfl

theorem dispatch_unsub :
    assocLookup clientFactoryTable (.str "unsub") = some UnsubMessageFactory.create := rfl

theorem dispatch_added :
    assocLookup serverFactoryTable (.str "added") = some AddedMessageFactory.create := rfl

theorem dispatch_addedBefore :
    assocLookup serverFactoryTable (.str "addedBefore") =
      some AddedBeforeMessageFactory.create := rfl

theorem dispatch_changed :
    assocLookup serverFactoryTable (.str "changed") = some ChangedMessageFactory.create := rfl

theorem dispatch_connected :
    assocLookup serverFactoryTable (.str "connected") =
      some ConnectedMessageFactory.create := rfl

theorem dispatch_error :
    assocLookup serverFactoryTable (.str "error") = some ErrorMessageFactory.create := rfl

theorem dispatch_failed :
    assocLookup serverFactoryTable (.str "failed") = some FailedMessageFactory.create := rfl

theorem dispatch_movedBefore :
    assocLookup serverFactoryTable (.str "movedBefore") =
      some MovedBeforeMessageFactory.create := rfl

theorem dispatch_nosub :
    assocLookup serverFactoryTable (.str "nosub") = some NosubMessageFactory.create := rfl

theorem dispatch_ready :
    assocLookup serverFactoryTable (.str "ready") = some ReadyMessageFactory.create := rfl

theorem dispatch_removed :
    assocLookup serverFactoryTable (.str "removed") = some RemoveMessageFactory.create := rfl

theorem dispatch_result :
    assocLookup serverFactoryTable (.str "result") = some ResultMessageFactory.create := rfl

theorem dispatch_updated :
    assocLookup serverFactoryTable (.str "updated") = some UpdatedMessageFactory.create := rfl

/-! ## Per-variant round trips (message → pod → message) -/

theorem roundtrip_connect (m : ConnectMessage) (hm : m.Inv) :
    ClientMessageFactory.create (PodClientMessageFactory.createC (.connect m)) =
      .ok (.connect m) := by
  obtain ⟨v, s, sess⟩ := m
  rcases hm with hs | ⟨vl, hs, hnot, hne⟩
  · subst hs
    by_cases h2 : sess = Value.null <;>
      simp [PodClientMessageFactory.createC, PodConnectMessageFactory.create,
        ClientMessageFactory.create, dispatch_connect, ConnectMessageFactory.create,
        ConnectMessage.init, ConnectMessage.has_support, ConnectMessage.has_session,
        podIndex, podGet, podLookup, h2]
  · subst hs
    by_cases h2 : sess = Value.null <;>
      simp [PodClientMessageFactory.createC, PodConnectMessageFactory.create,
        ClientMessageFactory.create, dispatch_connect, ConnectMessageFactory.create,
        ConnectMessage.init, ConnectMessage.has_support, ConnectMessage.has_session,
        ValueList.ofList_toList, podIndex, podGet, podLookup, h2, hnot, hne]

theorem roundtrip_method (m : MethodMessage) :
    ClientMessageFactory.create (PodClientMessageFactory.createC (.method m)) =
      .ok (.method m) := by
  obtain ⟨i, me, pa⟩ := m
  simp [PodClientMessageFactory.createC, PodMethodMessageFactory.create,
    ClientMessageFactory.create, dispatch_method, MethodMessageFactory.create,
    podIndex, podGet, podLookup]

theorem roundtrip_sub (m : SubMessage) :
    ClientMessageFactory.create (PodClientMessageFactory.createC (.sub m)) =
      .ok (.sub m) := by
  obtain ⟨i, n, pa⟩ := m
  by_cases h : pa = Value.null <;>
    simp [PodClientMessageFactory.createC, PodSubMessageFactory.create,
      ClientMessageFactory.create, dispatch_sub, SubMessageFactory.create,
      SubMessage.has_params, podIndex, podGet, podLookup, h]

theorem roundtrip_unsub (m : UnsubMessage) :
    ClientMessageFactory.create (PodClientMessageFactory.createC (.unsub m)) =
      .ok (.unsub m) := by
  obtain ⟨i⟩ := m
  simp [PodClientMessageFactory.createC, PodUnsubMessageFactory.create,
    ClientMessageFactory.create, dispatch_unsub, UnsubMessageFactory.create,
    podIndex, podGet, podLookup]

theorem roundtrip_added (m : AddedMessage) :
    ServerMessageFactory.create (PodServerMessageFactroy.createS (.added m)) =
      .ok (.added m) := by
  obtain ⟨c, i, f⟩ := m
  by_cases h : f = Value.null <;>
    simp [PodServerMessageFactroy.createS, PodAddedMessageFactory.create,
      ServerMessageFactory.create, dispatch_added, AddedMessageFactory.create,
      AddedMessage.has_fields, podIndex, podGet, podLookup, h]

theorem roundtrip_addedBefore (m : AddedBeforeMessage) :
    ServerMessageFactory.create (PodServerMessageFactroy.createS (.addedBefore m)) =
      .ok (.addedBefore m) := by
  obtain ⟨c, i, b, f⟩ := m
  by_cases h : f = Value.null <;>
    simp [PodServerMessageFactroy.createS, PodAddedBeforeMessageFactory.create,
      ServerMessageFactory.create, dispatch_addedBefore, AddedBeforeMessageFactory.create,
      AddedBeforeMessage.has_fields, podIndex, podGet, podLookup, h]

theorem roundtrip_changed (m : ChangedMessage) :
    ServerMessageFactory.create (PodServerMessageFactroy.createS (.changed m)) =
      .ok (.changed m) := by
  obtain ⟨c, i, cl, f⟩ := m
  by_cases h1 : cl = Value.null <;> by_cases h2 : f = Value.null <;>
    simp [PodServerMessageFactroy.createS, PodChangedMessageFactory.create,
      ServerMessageFactory.create, dispatch_changed, ChangedMessageFactory.create,
      ChangedMessage.has_cleared, ChangedMessage.has_fields, podIndex, podGet,
      podLookup, h1, h2]

theorem roundtrip_connected (m : ConnectedMessage) :
    ServerMessageFactory.create (PodServerMessageFactroy.createS (.connected m)) =
      .ok (.connected m) := by
  obtain ⟨s⟩ := m
  simp [PodServerMessageFactroy.createS, PodConnectedMessageFactory.create,
    ServerMessageFactory.create, dispatch_connected, ConnectedMessageFactory.create,
    podIndex, podGet, podLookup]

theorem roundtrip_error (m : ErrorMessage) :
    ServerMessageFactory.create (PodServerMessageFactroy.createS (.error m)) =
      .ok (.error m) := by
  obtain ⟨r, o⟩ := m
  simp [PodServerMessageFactroy.createS, PodErrorMessageFactory.create,
    ServerMessageFactory.create, dispatch_error, ErrorMessageFactory.create,
    podIndex, podGet, podLookup]

theorem roundtrip_failed (m : FailedMessage) :
    ServerMessageFactory.create (PodServerMessageFactroy.createS (.failed m)) =
      .ok (.failed m) := by
  obtain ⟨v⟩ := m
  simp [PodServerMessageFactroy.createS, PodFailedMessageFactory.create,
    ServerMessageFactory.create, dispatch_failed, FailedMessageFactory.create,
    podIndex, podGet, podLookup]

theorem roundtrip_movedBefore (m : MovedBeforeMessage) :
    ServerMessageFactory.create (PodServerMessageFactroy.createS (.movedBefore m)) =
      .ok (.movedBefore m) := by
  obtain ⟨c, i, b⟩ := m
  simp [PodServerMessageFactroy.createS, PodMovedBeforeMessageFactory.create,
    ServerMessageFactory.create, dispatch_movedBefore, MovedBeforeMessageFactory.create,
    podIndex, podGet, podLookup]

theorem roundtrip_nosub (m : NosubMessage) :
    ServerMessageFactory.create (PodServerMessageFactroy.createS (.nosub m)) =
      .ok (.nosub m) := by
  obtain ⟨i, e⟩ := m
  by_cases h : e = Value.null <;>
    simp [PodServerMessageFactroy.createS, PodNosubMessageFactory.create,
      ServerMessageFactory.create, dispatch_nosub, NosubMessageFactory.create,
      NosubMessage.has_error, podIndex, podGet, podLookup, h]

theorem roundtrip_ready (m : ReadyMessage) :
    ServerMessageFactory.create (PodServerMessageFactroy.createS (.ready m)) =
      .ok (.ready m) := by
  obtain ⟨s⟩ := m
  simp [PodServerMessageFactroy.createS, PodReadyMessageFactory.create,
    ServerMessageFactory.create, dispatch_ready, ReadyMessageFactory.create,
    podIndex, podGet, podLookup]

theorem roundtrip_removed (m : RemovedMessage) :
    ServerMessageFactory.create (PodServerMessageFactroy.createS (.removed m)) =
      .ok (.removed m) := by
  obtain ⟨c, i⟩ := m
  simp [PodServerMessageFactroy.createS, PodRemovedMessageFactory.create,
    ServerMessageFactory.create, dispatch_removed, RemoveMessageFactory.create,
    podIndex, podGet, podLookup]

theorem roundtrip_result (m : ResultMessage) (hm : m.Inv) :
    ServerMessageFactory.create (PodServerMessageFactroy.createS (.result m)) =
      .ok (.result m) := by
  obtain ⟨i, e, r⟩ := m
  simp only [ResultMessage.Inv, ResultMessage.has_error, ResultMessage.has_result] at hm
  by_cases he : e = Value.null <;> by_cases hr : r = Value.null
  · simp [he, hr] at hm
  · simp [PodServerMessageFactroy.createS, PodResultMessageFactory.create,
      ServerMessageFactory.create, dispatch_result, ResultMessageFactory.create,
      ResultMessage.init, ResultMessage.has_error, ResultMessage.has_result,
      nexists, pyExists, List.countP_cons, List.countP_nil,
      podIndex, podGet, podLookup, he, hr]
  · simp [PodServerMessageFactroy.createS, PodResultMessageFactory.create,
      ServerMessageFactory.create, dispatch_result, ResultMessageFactory.create,
      ResultMessage.init, ResultMessage.has_error, ResultMessage.has_result,
      nexists, pyExists, List.countP_cons, List.countP_nil,
      podIndex, podGet, podLookup, he, hr]
  · simp [he, hr] at hm

theorem roundtrip_updated (m : UpdatedMessage) :
    ServerMessageFactory.create (PodServerMessageFactroy.createS (.updated m)) =
      .ok (.updated m) := by
  obtain ⟨ms⟩ := m
  simp [PodServerMessageFactroy.createS, PodUpdatedMessageFactory.create,
    ServerMessageFactory.create, dispatch_updated, UpdatedMessageFactory.create,
    podIndex, podGet, podLookup]

/-- Any constructible client message decodes back from its encoding. -/
theorem clientRoundtrip (m : ClientMessage) (hm : m.Inv) :
    ClientMessageFactory.create (PodClientMessageFactory.createC m) = .ok m := by
  cases m with
  | connect c => exact roundtrip_connect c hm
  | method c => exact roundtrip_method c
  | sub c => exact roundtrip_sub c
  | unsub c => exact roundtrip_unsub c

/-- Any constructible server message decodes back from its encoding. -/
theorem serverRoundtrip (m : ServerMessage) (hm : m.Inv) :
    ServerMessageFactory.create (PodServerMessageFactroy.createS m) = .ok m := by
  cases m with
  | added c => exact roundtrip_added c
  | addedBefore c => exact roundtrip_addedBefore c
  | changed c => exact roundtrip_changed c
  | connected c => exact roundtrip_connected c
  | error c => exact roundtrip_error c
  | failed c => exact roundtrip_failed c
  | movedBefore c => exact roundtrip_movedBefore c
  | nosub c => exact roundtrip_nosub c
  | ready c => exact roundtrip_ready c
  | removed c => exact roundtrip_removed c
  | result c => exact roundtrip_result c hm
  | updated c => exact roundtrip_updated c

/-- Every encoded client pod has pairwise-distinct keys. -/
theorem nodupKeys_createC (m : ClientMessage) :
    NodupKeys (PodClientMessageFactory.createC m) := by
  cases m with
  | connect c =>
      obtain ⟨v, s, sess⟩ := c
      by_cases h1 : s = Value.null <;> by_cases h2 : sess = Value.null <;>
        simp [PodClientMessageFactory.createC, PodConnectMessageFactory.create,
          ConnectMessage.has_support, ConnectMessage.has_session, NodupKeys, podKeys,
          h1, h2]
  | method c =>
      simp [PodClientMessageFactory.createC, PodMethodMessageFactory.create,
        NodupKeys, podKeys]
  | sub c =>
      obtain ⟨i, n, pa⟩ := c
      by_cases h : pa = Value.null <;>
        simp [PodClientMessageFactory.createC, PodSubMessageFactory.create,
          SubMessage.has_params, NodupKeys, podKeys, h]
  | unsub c =>
      simp [PodClientMessageFactory.createC, PodUnsubMessageFactory.create,
        NodupKeys, podKeys]

/-- Every encoded server pod has pairwise-distinct keys. -/
theorem nodupKeys_createS (m : ServerMessage) :
    NodupKeys (PodServerMessageFactroy.createS m) := by
  cases m with
  | added c =>
      obtain ⟨co, i, f⟩ := c
      by_cases h : f = Value.null <;>
        simp [PodServerMessageFactroy.createS, PodAddedMessageFactory.create,
          AddedMessage.has_fields, NodupKeys, podKeys, h]
  | addedBefore c =>
      obtain ⟨co, i, b, f⟩ := c
      by_cases h : f = Value.null <;>
        simp [PodServerMessageFactroy.createS, PodAddedBeforeMessageFactory.create,
          AddedBeforeMessage.has_fields, NodupKeys, podKeys, h]
  | changed c =>
      obtain ⟨co, i, cl, f⟩ := c
      by_cases h1 : cl = Value.null <;> by_cases h2 : f = Value.null <;>
        simp [PodServerMessageFactroy.createS, PodChangedMessageFactory.create,
          ChangedMessage.has_cleared, ChangedMessage.has_fields, NodupKeys, podKeys,
          h1, h2]
  | connected c =>
      simp [PodServerMessageFactroy.createS, PodConnectedMessageFactory.create,
        NodupKeys, podKeys]
  | error c =>
      simp [PodServerMessageFactroy.createS, PodErrorMessageFactory.create,
        NodupKeys, podKeys]
  | failed c =>
      simp [PodServerMessageFactroy.createS, PodFailedMessageFactory.create,
        NodupKeys, podKeys]
  | movedBefore c =>
      simp [PodServerMessageFactroy.createS, PodMovedBeforeMessageFactory.create,
        NodupKeys, podKeys]
  | nosub c =>
      obtain ⟨i, e⟩ := c
      by_cases h : e = Value.null <;>
        simp [PodServerMessageFactroy.createS, PodNosubMessageFactory.create,
          NosubMessage.has_error, NodupKeys, podKeys, h]
  | ready c =>
      simp [PodServerMessageFactroy.createS, PodReadyMessageFactory.create,
        NodupKeys, podKeys]
  | removed c =>
      simp [PodServerMessageFactroy.createS, PodRemovedMessageFactory.create,
        NodupKeys, podKeys]
  | result c =>
      obtain ⟨i, e, r⟩ := c
      by_cases h1 : e = Value.null <;> by_cases h2 : r = Value.null <;>
        simp [PodServerMessageFactroy.createS, PodResultMessageFactory.create,
          ResultMessage.has_error, ResultMessage.has_result, NodupKeys, podKeys,
          h1, h2]
  | updated c =>
      simp [PodServerMessageFactroy.createS, PodUpdatedMessageFactory.create,
        NodupKeys, podKeys]

/-- A client pod that agrees, up to key order, with the encoding of a
constructible message decodes to that message and re-encodes to a
reordering of itself. -/
theorem clientPodRoundtrip {p : Pod} {m : ClientMessage} (hm : m.Inv)
    (hp : p.Perm (PodClientMessageFactory.createC m)) :
    ClientMessageFactory.create p = .ok m ∧
      (PodClientMessageFactory.createC m).Perm p := by
  have nd : NodupKeys (PodClientMessageFactory.createC m) := nodupKeys_createC m
  have ndp : NodupKeys p := (hp.map Prod.fst).symm.nodup nd
  have hl : ∀ k, podLookup p k = podLookup (PodClientMessageFactory.createC m) k :=
    podLookup_perm hp ndp
  exact ⟨(clientCreate_congr hl).trans (clientRoundtrip m hm), hp.symm⟩

/-- Server-side counterpart of `clientPodRoundtrip`. -/
theorem serverPodRoundtrip {p : Pod} {m : ServerMessage} (hm : m.Inv)
    (hp : p.Perm (PodServerMessageFactroy.createS m)) :
    ServerMessageFactory.create p = .ok m ∧
      (PodServerMessageFactroy.createS m).Perm p := by
  have nd : NodupKeys (PodServerMessageFactroy.createS m) := nodupKeys_createS m
  have ndp : NodupKeys p := (hp.map Prod.fst).symm.nodup nd
  have hl : ∀ k, podLookup p k = podLookup (PodServerMessageFactroy.createS m) k :=
    podLookup_perm hp ndp
  exact ⟨(serverCreate_congr hl).trans (serverRoundtrip m hm), hp.symm⟩

/-- **C6** (amended): the pod emitted for any message carries the `msg`
discriminant first, then the required fields, then the present optional
fields, each group in the data model's declaration order — except `Added`,
whose factory emits `id` before `collection`. A key for an optional field
is present exactly when the field is. -/
theorem claim_C6_key_order_amended : ∀ msg : Message, encodedKeys msg = emittedKeyOrder msg := by
  intro msg
  rcases msg with m | m
  · cases m with
    | connect c =>
        simp [encodedKeys, emittedKeyOrder, declarationOrderKeys,
          PodClientMessageFactory.createC, PodConnectMessageFactory.create, podKeys]
        split_ifs <;> simp
    | method c =>
        simp [encodedKeys, emittedKeyOrder, declarationOrderKeys,
          PodClientMessageFactory.createC, PodMethodMessageFactory.create, podKeys]
    | sub c =>
        simp [encodedKeys, emittedKeyOrder, declarationOrderKeys,
          PodClientMessageFactory.createC, PodSubMessageFactory.create, podKeys]
        split_ifs <;> simp
    | unsub c =>
        simp [encodedKeys, emittedKeyOrder, declarationOrderKeys,
          PodClientMessageFactory.createC, PodUnsubMessageFactory.create, podKeys]
  · cases m with
    | added c =>
        simp [encodedKeys, emittedKeyOrder, declarationOrderKeys,
          PodServerMessageFactroy.createS, PodAddedMessageFactory.create, podKeys]
        split_ifs <;> simp
    | addedBefore c =>
        simp [encodedKeys, emittedKeyOrder, declarationOrderKeys,
          PodServerMessageFactroy.createS, PodAddedBeforeMessageFactory.create, podKeys]
        split_ifs <;> simp
    | changed c =>
        simp [encodedKeys, emittedKeyOrder, declarationOrderKeys,
          PodServerMessageFactroy.createS, PodChangedMessageFactory.create, podKeys]
        split_ifs <;> simp
    | connected c =>
        simp [encodedKeys, emittedKeyOrder, declarationOrderKeys,
          PodServerMessageFactroy.createS, PodConnectedMessageFactory.create, podKeys]
    | error c =>
        simp [encodedKeys, emittedKeyOrder, declarationOrderKeys,
          PodServerMessageFactroy.createS, PodErrorMessageFactory.create, podKeys]
    | failed c =>
        simp [encodedKeys, emittedKeyOrder, declarationOrderKeys,
          PodServerMessageFactroy.createS, PodFailedMessageFactory.create, podKeys]
    | movedBefore c =>
        simp [encodedKeys, emittedKeyOrder, declarationOrderKeys,
          PodServerMessageFactroy.createS, PodMovedBeforeMessageFactory.create, podKeys]
    | nosub c =>
        simp [encodedKeys, emittedKeyOrder, declarationOrderKeys,
          PodServerMessageFactroy.createS, PodNosubMessageFactory.create, podKeys]
        split_ifs <;> simp
    | ready c =>
        simp [encodedKeys, emittedKeyOrder, declarationOrderKeys,
          PodServerMessageFactroy.createS, PodReadyMessageFactory.create, podKeys]
    | removed c =>
        simp [encodedKeys, emittedKeyOrder, declarationOrderKeys,
          PodServerMessageFactroy.createS, PodRemovedMessageFactory.create, podKeys]
    | result c =>
        simp [encodedKeys, emittedKeyOrder, declarationOrderKeys,
          PodServerMessageFactroy.createS, PodResultMessageFactory.create, podKeys]
        split_ifs <;> simp
    | updated c =>
        simp [encodedKeys, emittedKeyOrder, declarationOrderKeys,
          PodServerMessageFactroy.createS, PodUpdatedMessageFactory.create, podKeys]

/-! ## Heap lemmas -/

theorem Heap.read_alloc_self (h : Heap) (l : List Value) :
    (h.alloc l).1.read (h.alloc l).2 = l := by
  simp [Heap.alloc, Heap.read, List.getD, List.getElem?_concat_length]

theorem Heap.read_alloc_of_lt {h : Heap} {r : Ref} (hr : r < h.length) (l : List Value) :
    (h.alloc l).1.read r = h.read r := by
  simp [Heap.alloc, Heap.read, List.getD, List.getElem?_append_left hr]

theorem Heap.read_write_ne {h : Heap} {r r' : Ref} (hne : r' ≠ r) (l : List Value) :
    (h.write r' l).read r = h.read r := by
  simp [Heap.write, Heap.read, List.getD, List.getElem?_set_ne hne]

theorem Heap.read_write_self {h : Heap} {r : Ref} (hr : r < h.length) (l : List Value) :
    (h.write r l).read r = l := by
  simp [Heap.write, Heap.read, List.getD, List.getElem?_set_eq_of_lt l hr]

theorem assocLookup_eq_none {α : Type} {t : List (Value × α)} {d : Value}
    (h : d ∉ t.map Prod.fst) : assocLookup t d = none := by
  induction t with
  | nil => rfl
  | cons x rest ih =>
      obtain ⟨k, f⟩ := x
      simp only [List.map_cons, List.mem_cons] at h
      push_neg at h
      have hk : k ≠ d := Ne.symm h.1
      simp [assocLookup, hk, ih h.2]

/-! ## Claims -/

/-- **C6** counterexample: the `Added` pod carries `id` before
`collection`, not the declaration order `collection`, `id` that the claim
asserts. -/
theorem claim_C6_counterexample :
    encodedKeys (.server (.added ⟨.str "c", .str "i", .null⟩)) = ["msg", "id", "collection"] ∧
    declarationOrderKeys (.server (.added ⟨.str "c", .str "i", .null⟩)) =
      ["msg", "collection", "id"] ∧
    (["msg", "id", "collection"] : List String) ≠ ["msg", "collection", "id"] := by
  refine ⟨?_, ?_, ?_⟩ <;> decide

/-- **C8**: `Future.get` has no timeout exit — on a future that is never
set, the loop is still running after every number of expired waits, and no
timeout indication is ever produced; a future that is set resolves every
(also later) `get`. The specification's intended timeout outcome is absent
from the code. -/
theorem claim_C8_get_never_times_out :
    (∀ n : Nat, Future.getAttempt Future.init n = none) ∧
    (∀ (v : Value) (n : Nat), Future.getAttempt (Future.init.set v) n = some v) := by
  constructor
  · intro n
    induction n with
    | zero => rfl
    | succ k ih => simpa [Future.getAttempt, Future.init] using ih
  · intro v n
    induction n with
    | zero => rfl
    | succ k ih => simp [Future.getAttempt, Future.set]

/-- **C9**: the server-message filter accepts a pod exactly when it has a
`msg` key; a pod without one is discarded before decoding, and a delivered
message is exactly the decoder's output on an accepted pod. -/
theorem claim_C9_filter_accepts_iff_discriminant :
    (∀ p : Pod, PodServerMessageFilter.accept p = true ↔ ∃ v, podLookup p "msg" = some v) ∧
    (∀ p : Pod, podLookup p "msg" = none →
        MessageWebSocketClient.receivedMessage p = .ok none) ∧
    (∀ (p : Pod) (m : ServerMessage),
        MessageWebSocketClient.receivedMessage p = .ok (some m) →
        PodServerMessageFilter.accept p = true ∧ ServerMessageFactory.create p = .ok m) := by
  refine ⟨?_, ?_, ?_⟩
  · intro p
    simp [PodServerMessageFilter.accept, podHasKey, Option.isSome_iff_exists]
  · intro p h
    simp [MessageWebSocketClient.receivedMessage, PodServerMessageFilter.accept,
      podHasKey, h]
  · intro p m h
    by_cases ha : PodServerMessageFilter.accept p
    · refine ⟨ha, ?_⟩
      simp only [MessageWebSocketClient.receivedMessage, ha, if_true] at h
      cases hc : ServerMessageFactory.create p with
      | error e => simp [hc] at h
      | ok m0 => simp [hc] at h; simp [h]
    · simp [MessageWebSocketClient.receivedMessage, ha] at h

/-- **C9** witness: a pod with a `msg` key is accepted and its decoded
message delivered; a pod without one is dropped. -/
theorem claim_C9_witness :
    (PodServerMessageFilter.accept [("msg", .str "failed"), ("version", .str "2")] = true ↔
      ∃ v, podLookup [("msg", .str "failed"), ("version", .str "2")] "msg" = some v) ∧
    MessageWebSocketClient.receivedMessage [("noise", .num 3)] = .ok none ∧
    (PodServerMessageFilter.accept [("msg", .str "failed"), ("version", .str "2")] = true ∧
      ServerMessageFactory.create [("msg", .str "failed"), ("version", .str "2")] =
        .ok (.failed ⟨.str "2"⟩)) := by
  refine ⟨claim_C9_filter_accepts_iff_discriminant.1 _,
    claim_C9_filter_accepts_iff_discriminant.2.1 _ (by decide),
    claim_C9_filter_accepts_iff_discriminant.2.2 _ _ (by rfl)⟩

/-- **C10**: `DdpConnection.__init__` evaluates the free name
`closed_callback`, which is bound in no enclosing scope, so every
construction fails with a `NameError` and no session object is ever
produced; and `_received_message` reads the attribute
`_received_message_callback`, which no code assigns, so it would fail with
an `AttributeError`. -/
theorem claim_C10_ddpconnection_unconstructible :
    (∀ cm : Message, DdpConnection.init cm = .error (.nameError "closed_callback")) ∧
    (∀ (d : DdpConnection) (msg : Message),
        DdpConnection.receivedMessageHandler d msg =
          .error (.attributeError "_received_message_callback")) := by
  exact ⟨fun cm => rfl, fun d msg => rfl⟩

/-- **C4** counterexample: the packaged `ChangedMessage`
(`ddp/message/server/changed_message.py`) reads an absent `cleared`/`fields`
as a plain `None` — no "field not present" failure is raised. -/
theorem claim_C4_counterexample :
    ChangedMessagePkg.cleared ⟨.str "c", .str "i", .null, .null⟩ = .null ∧
    ChangedMessagePkg.fields ⟨.str "c", .str "i", .null, .null⟩ = .null := ⟨rfl, rfl⟩

/-- **C4** (amended): every optional-field accessor of the message classes
in `ddp.py` fails with an `AttributeError` ("field not present") when the
field is absent; the packaged `ChangedMessage` in
`ddp/message/server/changed_message.py` instead returns the stored value —
`None` when the field is absent — without raising. -/
theorem claim_C4_absent_accessors_amended :
    (∀ m : ConnectMessage, m.has_support = false →
        m.support = .error (.attributeError "connect message has no `support` field")) ∧
    (∀ m : ConnectMessage, m.has_session = false →
        m.session = .error (.attributeError "connect message has no `session` field")) ∧
    (∀ m : SubMessage, m.has_params = false →
        m.params = .error (.attributeError "sub message has no `params` field")) ∧
    (∀ m : AddedMessage, m.has_fields = false →
        m.fields = .error (.attributeError "added message has no `added` field")) ∧
    (∀ m : AddedBeforeMessage, m.has_fields = false →
        m.fields = .error (.attributeError "added before message has no `fields` field")) ∧
    (∀ m : ChangedMessage, m.has_cleared = false →
        m.cleared = .error (.attributeError "changed message has no `cleared` field")) ∧
    (∀ m : ChangedMessage, m.has_fields = false →
        m.fields = .error (.attributeError "changed message has no `fields` field")) ∧
    (∀ m : NosubMessage, m.has_error = false →
        m.error = .error (.attributeError "nosub message has no `error` field")) ∧
    (∀ m : ResultMessage, m.has_error = false →
        m.error = .error (.attributeError "result message has no `error` field")) ∧
    (∀ m : ResultMessage, m.has_result = false →
        m.result = .error (.attributeError "result message has not `result` field")) ∧
    (∀ m : ChangedMessagePkg, m._cleared = .null → ChangedMessagePkg.cleared m = .null) ∧
    (∀ m : ChangedMessagePkg, m._fields = .null → ChangedMessagePkg.fields m = .null) := by
  refine ⟨?_, ?_, ?_, ?_, ?_, ?_, ?_, ?_, ?_, ?_, ?_, ?_⟩ <;> intro m h <;>
    simp [ConnectMessage.support, ConnectMessage.session, SubMessage.params,
      AddedMessage.fields, AddedBeforeMessage.fields, ChangedMessage.cleared,
      ChangedMessage.fields, NosubMessage.error, ResultMessage.error,
      ResultMessage.result, ChangedMessagePkg.cleared, ChangedMessagePkg.fields, h]

/-- **C4** witness: the amended statement at concrete instances with the
field absent. -/
theorem claim_C4_witness :
    (⟨.str "1", .null, .null⟩ : ConnectMessage).support =
      .error (.attributeError "connect message has no `support` field") ∧
    (⟨.str "r", .null, .num 3⟩ : ResultMessage).error =
      .error (.attributeError "result message has no `error` field") ∧
    ChangedMessagePkg.cleared ⟨.str "col", .str "idx", .null, .obj .nil⟩ = .null := by
  refine ⟨claim_C4_absent_accessors_amended.1 _ (by decide),
    claim_C4_absent_accessors_amended.2.2.2.2.2.2.2.2.1 _ (by decide),
    claim_C4_absent_accessors_amended.2.2.2.2.2.2.2.2.2.2.1 _ (by decide)⟩

/-- **C2**: `Result` construction requires exactly one of `error`/`result`
(both or neither raise the `ValueError`), and each successful construction
round-trips through the pod codec. -/
theorem claim_C2_result_exactly_one :
    (∀ id e r : Value, e ≠ .null → r ≠ .null →
        ResultMessage.init id e r =
          .error (.valueError "either error or result must be given")) ∧
    (∀ id : Value, ResultMessage.init id .null .null =
        .error (.valueError "either error or result must be given")) ∧
    (∀ id e : Value, e ≠ .null →
        ∃ m, ResultMessage.init id e .null = .ok m ∧
          ServerMessageFactory.create (PodServerMessageFactroy.createS (.result m)) =
            .ok (.result m)) ∧
    (∀ id r : Value, r ≠ .null →
        ∃ m, ResultMessage.init id .null r = .ok m ∧
          ServerMessageFactory.create (PodServerMessageFactroy.createS (.result m)) =
            .ok (.result m)) := by
  refine ⟨?_, ?_, ?_, ?_⟩
  · intro id e r he hr
    simp [ResultMessage.init, nexists, pyExists, List.countP_cons, List.countP_nil, he, hr]
  · intro id
    simp [ResultMessage.init, nexists, pyExists, List.countP_cons, List.countP_nil]
  · intro id e he
    refine ⟨⟨id, e, .null⟩, ?_, ?_⟩
    · simp [ResultMessage.init, nexists, pyExists, List.countP_cons, List.countP_nil, he]
    · exact roundtrip_result _ (by
        simp [ResultMessage.Inv, ResultMessage.has_error, ResultMessage.has_result, he])
  · intro id r hr
    refine ⟨⟨id, .null, r⟩, ?_, ?_⟩
    · simp [ResultMessage.init, nexists, pyExists, List.countP_cons, List.countP_nil, hr]
    · exact roundtrip_result _ (by
        simp [ResultMessage.Inv, ResultMessage.has_error, ResultMessage.has_result, hr])

/-- **C2** witness: the four cases at concrete values. -/
theorem claim_C2_witness :
    ResultMessage.init (.str "1") (.str "E") (.num 2) =
      .error (.valueError "either error or result must be given") ∧
    ResultMessage.init (.str "1") .null .null =
      .error (.valueError "either error or result must be given") ∧
    (∃ m, ResultMessage.init (.str "1") (.str "E") .null = .ok m ∧
      ServerMessageFactory.create (PodServerMessageFactroy.createS (.result m)) =
        .ok (.result m)) ∧
    (∃ m, ResultMessage.init (.str "1") .null (.num 2) = .ok m ∧
      ServerMessageFactory.create (PodServerMessageFactroy.createS (.result m)) =
        .ok (.result m)) := by
  refine ⟨claim_C2_result_exactly_one.1 _ _ _ (by decide) (by decide),
    claim_C2_result_exactly_one.2.1 _,
    claim_C2_result_exactly_one.2.2.1 _ _ (by decide),
    claim_C2_result_exactly_one.2.2.2 _ _ (by decide)⟩

/-- **C3**: `Connect` elides the preferred version from `support` before
storage (first occurrence, Python `list.remove`), stores an emptied
`support` as absent, and the two concrete serializations behave as the
claim states. -/
theorem claim_C3_connect_version_elision :
    (∀ (v : Value) (vl : ValueList) (sess : Value), v ∈ vl.toList →
        ConnectMessage.init v (.arr vl) sess =
          .ok ⟨v, if vl.toList.erase v = [] then .null
                  else .arr (.ofList (vl.toList.erase v)), sess⟩) ∧
    (∀ (v : Value) (vl : ValueList) (sess : Value),
        (if v ∈ vl.toList then vl.toList.erase v else vl.toList) = [] →
        ∃ m, ConnectMessage.init v (.arr vl) sess = .ok m ∧ m.has_support = false) ∧
    (∃ m, ConnectMessage.init (.str "1")
          (.arr (.cons (.str "1") (.cons (.str "2") .nil))) .null = .ok m ∧
        PodClientMessageFactory.createC (.connect m) =
          [("msg", .str "connect"), ("version", .str "1"),
           ("support", .arr (.cons (.str "2") .nil))]) ∧
    (∃ m, ConnectMessage.init (.str "1") (.arr (.cons (.str "1") .nil)) .null = .ok m ∧
        PodClientMessageFactory.createC (.connect m) =
          [("msg", .str "connect"), ("version", .str "1")] ∧
        podHasKey (PodClientMessageFactory.createC (.connect m)) "support" = false) := by
  refine ⟨?_, ?_, ?_, ?_⟩
  · intro v vl sess hv
    simp [ConnectMessage.init, hv]
  · intro v vl sess hemp
    by_cases hv : v ∈ vl.toList
    · simp only [hv, if_true] at hemp
      exact ⟨⟨v, .null, sess⟩, by simp [ConnectMessage.init, hv, hemp],
        by simp [ConnectMessage.has_support]⟩
    · simp only [hv, if_false] at hemp
      exact ⟨⟨v, .null, sess⟩, by simp [ConnectMessage.init, hv, hemp],
        by simp [ConnectMessage.has_support]⟩
  · exact ⟨⟨.str "1", .arr (.cons (.str "2") .nil), .null⟩, by rfl, by decide⟩
  · exact ⟨⟨.str "1", .null, .null⟩, by rfl, by decide, by decide⟩

/-- **C3** witness: the general clauses at concrete inputs. -/
theorem claim_C3_witness :
    ConnectMessage.init (.str "1") (.arr (.cons (.str "1") (.cons (.str "2") .nil)))
        (.str "s") =
      .ok ⟨.str "1",
        if (ValueList.cons (.str "1") (.cons (.str "2") .nil)).toList.erase (.str "1") = []
        then .null
        else .arr (.ofList ((ValueList.cons (.str "1")
          (.cons (.str "2") .nil)).toList.erase (.str "1"))), .str "s"⟩ ∧
    (∃ m, ConnectMessage.init (.str "1") (.arr (.cons (.str "1") .nil)) .null = .ok m ∧
      m.has_support = false) := by
  exact ⟨claim_C3_connect_version_elision.1 _ _ _ (by decide),
    claim_C3_connect_version_elision.2.1 _ _ _ (by decide)⟩


/-- **C1** counterexample: `ConnectMessage("1", support=["1","1"])` is
constructible, yet decoding its encoding yields a different message — the
constructor removed only the first duplicate of the preferred version, and
re-decoding removes the second and stores `support` as absent. -/
theorem claim_C1_counterexample :
    ConnectMessage.init (.str "1") (.arr (.cons (.str "1") (.cons (.str "1") .nil))) .null =
      .ok ⟨.str "1", .arr (.cons (.str "1") .nil), .null⟩ ∧
    ClientMessageFactory.create (PodClientMessageFactory.createC
        (.connect ⟨.str "1", .arr (.cons (.str "1") .nil), .null⟩)) =
      .ok (.connect ⟨.str "1", .null, .null⟩) ∧
    ClientMessage.connect ⟨.str "1", .null, .null⟩ ≠
      .connect ⟨.str "1", .arr (.cons (.str "1") .nil), .null⟩ :=
  ⟨rfl, rfl, by decide⟩

/-- **C1** (amended): `fromPod(toPod(m)) = m` for every message whose
`Connect` support is reduced (absent, or non-empty and free of the
preferred version; `Result` satisfying its exactly-one invariant) — and for
every pod that agrees up to key order with the encoding of such a message,
decoding and re-encoding reproduces it up to key order. -/
theorem claim_C1_roundtrip_amended :
    (∀ m : ClientMessage, m.Inv →
        ClientMessageFactory.create (PodClientMessageFactory.createC m) = .ok m) ∧
    (∀ m : ServerMessage, m.Inv →
        ServerMessageFactory.create (PodServerMessageFactroy.createS m) = .ok m) ∧
    (∀ (p : Pod) (m : ClientMessage), m.Inv →
        p.Perm (PodClientMessageFactory.createC m) →
        ClientMessageFactory.create p = .ok m ∧
          (PodClientMessageFactory.createC m).Perm p) ∧
    (∀ (p : Pod) (m : ServerMessage), m.Inv →
        p.Perm (PodServerMessageFactroy.createS m) →
        ServerMessageFactory.create p = .ok m ∧
          (PodServerMessageFactroy.createS m).Perm p) :=
  ⟨clientRoundtrip, serverRoundtrip,
   fun _ _ hm hp => clientPodRoundtrip hm hp,
   fun _ _ hm hp => serverPodRoundtrip hm hp⟩

/-- **C1** witness: both directions at concrete messages and pods. -/
theorem claim_C1_witness :
    ClientMessageFactory.create (PodClientMessageFactory.createC
        (.connect ⟨.str "1", .arr (.cons (.str "2") .nil), .str "s"⟩)) =
      .ok (.connect ⟨.str "1", .arr (.cons (.str "2") .nil), .str "s"⟩) ∧
    ServerMessageFactory.create (PodServerMessageFactroy.createS
        (.result ⟨.str "7", .null, .num 3⟩)) = .ok (.result ⟨.str "7", .null, .num 3⟩) ∧
    (ClientMessageFactory.create [("version", .str "1"), ("msg", .str "connect")] =
        .ok (.connect ⟨.str "1", .null, .null⟩) ∧
      (PodClientMessageFactory.createC (.connect ⟨.str "1", .null, .null⟩)).Perm
        [("version", .str "1"), ("msg", .str "connect")]) ∧
    (ServerMessageFactory.create
        [("id", .str "9"), ("collection", .str "c"), ("msg", .str "removed")] =
        .ok (.removed ⟨.str "c", .str "9"⟩) ∧
      (PodServerMessageFactroy.createS (.removed ⟨.str "c", .str "9"⟩)).Perm
        [("id", .str "9"), ("collection", .str "c"), ("msg", .str "removed")]) := by
  refine ⟨claim_C1_roundtrip_amended.1 _ ?_, claim_C1_roundtrip_amended.2.1 _ ?_,
    claim_C1_roundtrip_amended.2.2.1 _ _ ?_ ?_,
    claim_C1_roundtrip_amended.2.2.2 _ _ ?_ ?_⟩
  · exact Or.inr ⟨_, rfl, by decide, by decide⟩
  · show (⟨.str "7", .null, .num 3⟩ : ResultMessage).has_error ≠
      (⟨.str "7", .null, .num 3⟩ : ResultMessage).has_result
    decide
  · exact Or.inl rfl
  · decide
  · trivial
  · decide

/-- **C5** counterexample: `SubMessage.params` hands back the internal
list reference (source line 192, `return self._params`), so a caller
mutating the returned collection changes the message's observable params
— the claim's accessor-copy guarantee fails. -/
theorem claim_C5_counterexample :
    SubMessageH.init [[Value.num 1]] .null .null (some 0) =
      ([[Value.num 1], [Value.num 1]], ⟨.null, .null, some 1⟩) ∧
    SubMessageH.params ⟨.null, .null, some 1⟩ = .ok 1 ∧
    SubMessageH.paramsValue (Heap.write [[Value.num 1], [Value.num 1]] 1 [Value.num 2])
        ⟨.null, .null, some 1⟩ = some [Value.num 2] ∧
    SubMessageH.paramsValue [[Value.num 1], [Value.num 1]] ⟨.null, .null, some 1⟩ =
      some [Value.num 1] ∧
    (some [Value.num 2] : Option (List Value)) ≠ some [Value.num 1] :=
  ⟨rfl, rfl, rfl, rfl, by decide⟩

/-- **C5** (amended): the collection-valued fields that the constructors
pass through `copy()`/`list()` — `Sub`/`Method` params, `Connect` support,
`Added`/`AddedBefore`/`Changed` fields and cleared, `Ready` subs, `Updated`
methods — are defensively copied at construction, and the accessors written
`return copy(...)` return fresh copies. But `ErrorMessage.offending_pod`,
`NosubMessage.error` and `ResultMessage.error` are stored and returned by
reference with no copy at either end, and `SubMessage.params` and
`ConnectMessage.support` return the internal collection despite copying at
construction — mutating those collections changes the message. -/
theorem claim_C5_defensive_copy_amended :
    (∀ (h : Heap) (id name : Value) (r : Ref), r < h.length →
        ∀ (h' : Heap) (m : SubMessageH) (l' : List Value),
          SubMessageH.init h id name (some r) = (h', m) →
          SubMessageH.paramsValue (h'.write r l') m = SubMessageH.paramsValue h' m) ∧
    (∀ (h : Heap) (id method : Value) (r : Ref), r < h.length →
        ∀ (h' : Heap) (m : MethodMessageH) (l' : List Value),
          MethodMessageH.init h id method (some r) = (h', m) →
          MethodMessageH.paramsValue (h'.write r l') m = MethodMessageH.paramsValue h' m) ∧
    (∀ (h : Heap) (v sess : Value) (r : Ref), r < h.length →
        ∀ (h' : Heap) (m : ConnectMessageH) (l' : List Value),
          ConnectMessageH.init h v (some r) sess = (h', m) →
          ConnectMessageH.supportValue (h'.write r l') m =
            ConnectMessageH.supportValue h' m) ∧
    (∀ (h : Heap) (c i : Value) (r : Ref), r < h.length →
        ∀ (h' : Heap) (m : AddedMessageH) (l' : List Value),
          AddedMessageH.init h c i (some r) = (h', m) →
          AddedMessageH.fieldsValue (h'.write r l') m = AddedMessageH.fieldsValue h' m) ∧
    (∀ (h : Heap) (c i b : Value) (r : Ref), r < h.length →
        ∀ (h' : Heap) (m : AddedBeforeMessageH) (l' : List Value),
          AddedBeforeMessageH.init h c i b (some r) = (h', m) →
          AddedBeforeMessageH.fieldsValue (h'.write r l') m =
            AddedBeforeMessageH.fieldsValue h' m) ∧
    (∀ (h : Heap) (c i : Value) (rc rf : Ref), rc < h.length → rf < h.length →
        ∀ (h' : Heap) (m : ChangedMessageH) (r0 : Ref) (l' : List Value),
          ChangedMessageH.init h c i (some rc) (some rf) = (h', m) →
          r0 = rc ∨ r0 = rf →
          ChangedMessageH.clearedValue (h'.write r0 l') m =
              ChangedMessageH.clearedValue h' m ∧
            ChangedMessageH.fieldsValue (h'.write r0 l') m =
              ChangedMessageH.fieldsValue h' m) ∧
    (∀ (h : Heap) (r : Ref), r < h.length →
        ∀ (h' : Heap) (m : ReadyMessageH) (l' : List Value),
          ReadyMessageH.init h (some r) = (h', m) →
          ReadyMessageH.subsValue (h'.write r l') m = ReadyMessageH.subsValue h' m) ∧
    (∀ (h : Heap) (r : Ref), r < h.length →
        ∀ (h' : Heap) (m : UpdatedMessageH) (l' : List Value),
          UpdatedMessageH.init h (some r) = (h', m) →
          UpdatedMessageH.methodsValue (h'.write r l') m =
            UpdatedMessageH.methodsValue h' m) ∧
    (∀ (h : Heap) (m : MethodMessageH) (r : Ref), m._params = some r → r < h.length →
        ∀ (h' : Heap) (r' : Ref) (l' : List Value),
          MethodMessageH.params h m = (h', some r') →
          MethodMessageH.paramsValue (h'.write r' l') m = MethodMessageH.paramsValue h' m) ∧
    (∀ (h : Heap) (m : AddedMessageH) (r : Ref), m._fields = some r → r < h.length →
        ∀ (h' : Heap) (r' : Ref) (l' : List Value),
          AddedMessageH.fieldsAcc h m = .ok (h', r') →
          AddedMessageH.fieldsValue (h'.write r' l') m = AddedMessageH.fieldsValue h' m) ∧
    (∀ (h : Heap) (m : AddedBeforeMessageH) (r : Ref), m._fields = some r →
        r < h.length →
        ∀ (h' : Heap) (r' : Ref) (l' : List Value),
          AddedBeforeMessageH.fieldsAcc h m = .ok (h', r') →
          AddedBeforeMessageH.fieldsValue (h'.write r' l') m =
            AddedBeforeMessageH.fieldsValue h' m) ∧
    (∀ (h : Heap) (m : ChangedMessageH) (r : Ref), m._cleared = some r → r < h.length →
        ∀ (h' : Heap) (r' : Ref) (l' : List Value),
          ChangedMessageH.clearedAcc h m = .ok (h', r') →
          ChangedMessageH.clearedValue (h'.write r' l') m =
            ChangedMessageH.clearedValue h' m) ∧
    (∀ (h : Heap) (m : ChangedMessageH) (r : Ref), m._fields = some r → r < h.length →
        ∀ (h' : Heap) (r' : Ref) (l' : List Value),
          ChangedMessageH.fieldsAcc h m = .ok (h', r') →
          ChangedMessageH.fieldsValue (h'.write r' l') m =
            ChangedMessageH.fieldsValue h' m) ∧
    (∀ (h : Heap) (m : ReadyMessageH) (r : Ref), m._subs = some r → r < h.length →
        ∀ (h' : Heap) (r' : Ref) (l' : List Value),
          ReadyMessageH.subsAcc h m = (h', some r') →
          ReadyMessageH.subsValue (h'.write r' l') m = ReadyMessageH.subsValue h' m) ∧
    (∀ (h : Heap) (m : UpdatedMessageH) (r : Ref), m._methods = some r → r < h.length →
        ∀ (h' : Heap) (r' : Ref) (l' : List Value),
          UpdatedMessageH.methodsAcc h m = (h', some r') →
          UpdatedMessageH.methodsValue (h'.write r' l') m =
            UpdatedMessageH.methodsValue h' m) ∧
    (∀ (m : SubMessageH) (r : Ref), SubMessageH.params m = .ok r → m._params = some r) ∧
    (∀ (m : ConnectMessageH) (r : Ref), ConnectMessageH.support m = .ok r →
        m._support = some r) ∧
    (∀ (h : Heap) (reason : Value) (r : Ref) (l' : List Value), r < h.length →
        ErrorMessageH.offendingPodValue (h.write r l')
            (ErrorMessageH.init reason (some r)) = some l' ∧
          ErrorMessageH.offendingPodAcc (ErrorMessageH.init reason (some r)) = some r) ∧
    (∀ (h : Heap) (id : Value) (r : Ref) (l' : List Value), r < h.length →
        NosubMessageH.errorValue (h.write r l') (NosubMessageH.init id (some r)) =
            some l' ∧
          NosubMessageH.errorAcc (NosubMessageH.init id (some r)) = .ok r) ∧
    (∀ (h : Heap) (id : Value) (r : Ref) (l' : List Value), r < h.length →
        ∃ m, ResultMessageH.init id (some r) none = .ok m ∧
          ResultMessageH.errorAcc m = .ok r ∧
          ResultMessageH.errorValue (h.write r l') m = some l') := by
  refine ⟨?_, ?_, ?_, ?_, ?_, ?_, ?_, ?_, ?_, ?_, ?_, ?_, ?_, ?_, ?_, ?_, ?_, ?_, ?_, ?_⟩
  · intro h id name r hr h' m l' hinit
    simp only [SubMessageH.init, Heap.alloc] at hinit
    injection hinit with h1 h2
    subst h1
    subst h2
    simp [SubMessageH.paramsValue, Heap.read_write_ne (Nat.ne_of_lt hr)]
  · intro h id method r hr h' m l' hinit
    simp only [MethodMessageH.init, Heap.alloc] at hinit
    injection hinit with h1 h2
    subst h1
    subst h2
    simp [MethodMessageH.paramsValue, Heap.read_write_ne (Nat.ne_of_lt hr)]
  · intro h v sess r hr h' m l' hinit
    simp only [ConnectMessageH.init, Heap.alloc] at hinit
    split at hinit <;> split at hinit <;>
      (injection hinit with h1 h2
       subst h1
       subst h2
       simp [ConnectMessageH.supportValue, Heap.read_write_ne (Nat.ne_of_lt hr)])
  · intro h c i r hr h' m l' hinit
    simp only [AddedMessageH.init, copyCell, Heap.alloc] at hinit
    injection hinit with h1 h2
    subst h1
    subst h2
    simp [AddedMessageH.fieldsValue, Heap.read_write_ne (Nat.ne_of_lt hr)]
  · intro h c i b r hr h' m l' hinit
    simp only [AddedBeforeMessageH.init, copyCell, Heap.alloc] at hinit
    injection hinit with h1 h2
    subst h1
    subst h2
    simp [AddedBeforeMessageH.fieldsValue, Heap.read_write_ne (Nat.ne_of_lt hr)]
  · intro h c i rc rf hrc hrf h' m r0 l' hinit hr0
    simp only [ChangedMessageH.init, copyCell, Heap.alloc] at hinit
    injection hinit with h1 h2
    subst h1
    subst h2
    have hne1 : r0 ≠ h.length := by
      rcases hr0 with rfl | rfl
      exacts [Nat.ne_of_lt hrc, Nat.ne_of_lt hrf]
    have hne2 : r0 ≠ h.length + 1 := by
      rcases hr0 with rfl | rfl
      exacts [Nat.ne_of_lt (Nat.lt_succ_of_lt hrc), Nat.ne_of_lt (Nat.lt_succ_of_lt hrf)]
    simp [ChangedMessageH.clearedValue, ChangedMessageH.fieldsValue,
      Heap.read_write_ne hne1, Heap.read_write_ne hne2]
  · intro h r hr h' m l' hinit
    simp only [ReadyMessageH.init, copyCell, Heap.alloc] at hinit
    injection hinit with h1 h2
    subst h1
    subst h2
    simp [ReadyMessageH.subsValue, Heap.read_write_ne (Nat.ne_of_lt hr)]
  · intro h r hr h' m l' hinit
    simp only [UpdatedMessageH.init, copyCell, Heap.alloc] at hinit
    injection hinit with h1 h2
    subst h1
    subst h2
    simp [UpdatedMessageH.methodsValue, Heap.read_write_ne (Nat.ne_of_lt hr)]
  · intro h m r hp hr h' r' l' hacc
    simp only [MethodMessageH.params, hp, Heap.alloc] at hacc
    injection hacc with h1 h2
    injection h2 with h2
    subst h1
    subst h2
    simp [MethodMessageH.paramsValue, hp, Heap.read_write_ne (Ne.symm (Nat.ne_of_lt hr))]
  · intro h m r hp hr h' r' l' hacc
    simp only [AddedMessageH.fieldsAcc, hp, Heap.alloc, Except.ok.injEq,
      Prod.mk.injEq] at hacc
    obtain ⟨h1, h2⟩ := hacc
    subst h1
    subst h2
    simp [AddedMessageH.fieldsValue, hp, Heap.read_write_ne (Ne.symm (Nat.ne_of_lt hr))]
  · intro h m r hp hr h' r' l' hacc
    simp only [AddedBeforeMessageH.fieldsAcc, hp, Heap.alloc, Except.ok.injEq,
      Prod.mk.injEq] at hacc
    obtain ⟨h1, h2⟩ := hacc
    subst h1
    subst h2
    simp [AddedBeforeMessageH.fieldsValue, hp,
      Heap.read_write_ne (Ne.symm (Nat.ne_of_lt hr))]
  · intro h m r hp hr h' r' l' hacc
    simp only [ChangedMessageH.clearedAcc, hp, Heap.alloc, Except.ok.injEq,
      Prod.mk.injEq] at hacc
    obtain ⟨h1, h2⟩ := hacc
    subst h1
    subst h2
    simp [ChangedMessageH.clearedValue, hp,
      Heap.read_write_ne (Ne.symm (Nat.ne_of_lt hr))]
  · intro h m r hp hr h' r' l' hacc
    simp only [ChangedMessageH.fieldsAcc, hp, Heap.alloc, Except.ok.injEq,
      Prod.mk.injEq] at hacc
    obtain ⟨h1, h2⟩ := hacc
    subst h1
    subst h2
    simp [ChangedMessageH.fieldsValue, hp,
      Heap.read_write_ne (Ne.symm (Nat.ne_of_lt hr))]
  · intro h m r hp hr h' r' l' hacc
    simp only [ReadyMessageH.subsAcc, copyCell, hp, Heap.alloc] at hacc
    injection hacc with h1 h2
    injection h2 with h2
    subst h1
    subst h2
    simp [ReadyMessageH.subsValue, hp, Heap.read_write_ne (Ne.symm (Nat.ne_of_lt hr))]
  · intro h m r hp hr h' r' l' hacc
    simp only [UpdatedMessageH.methodsAcc, copyCell, hp, Heap.alloc] at hacc
    injection hacc with h1 h2
    injection h2 with h2
    subst h1
    subst h2
    simp [UpdatedMessageH.methodsValue, hp,
      Heap.read_write_ne (Ne.symm (Nat.ne_of_lt hr))]
  · intro m r hacc
    cases hm : m._params with
    | none => simp [SubMessageH.params, hm] at hacc
    | some r0 =>
        simp only [SubMessageH.params, hm, Except.ok.injEq] at hacc
        rw [hacc]
  · intro m r hacc
    cases hm : m._support with
    | none => simp [ConnectMessageH.support, hm] at hacc
    | some r0 =>
        simp only [ConnectMessageH.support, hm, Except.ok.injEq] at hacc
        rw [hacc]
  · intro h reason r l' hr
    exact ⟨by simp [ErrorMessageH.init, ErrorMessageH.offendingPodValue,
        Heap.read_write_self hr], rfl⟩
  · intro h id r l' hr
    exact ⟨by simp [NosubMessageH.init, NosubMessageH.errorValue,
        Heap.read_write_self hr], rfl⟩
  · intro h id r l' hr
    refine ⟨⟨id, some r, none⟩, rfl, rfl, ?_⟩
    simp [ResultMessageH.errorValue, Heap.read_write_self hr]

/-- **C5** witness: every clause of the amended statement at a concrete
heap with one shared cell. -/
theorem claim_C5_witness :
    SubMessageH.paramsValue (Heap.write [[Value.num 1], [Value.num 1]] 0 [])
        ⟨.null, .null, some 1⟩ =
      SubMessageH.paramsValue [[Value.num 1], [Value.num 1]] ⟨.null, .null, some 1⟩ ∧
    MethodMessageH.paramsValue (Heap.write [[Value.num 1], [Value.num 1]] 0 [])
        ⟨.null, .null, some 1⟩ =
      MethodMessageH.paramsValue [[Value.num 1], [Value.num 1]] ⟨.null, .null, some 1⟩ ∧
    ConnectMessageH.supportValue (Heap.write [[Value.num 1], [Value.num 1]] 0 [])
        ⟨.str "v", some 1, .null⟩ =
      ConnectMessageH.supportValue [[Value.num 1], [Value.num 1]]
        ⟨.str "v", some 1, .null⟩ ∧
    AddedMessageH.fieldsValue (Heap.write [[Value.num 1], [Value.num 1]] 0 [])
        ⟨.null, .null, some 1⟩ =
      AddedMessageH.fieldsValue [[Value.num 1], [Value.num 1]] ⟨.null, .null, some 1⟩ ∧
    AddedBeforeMessageH.fieldsValue (Heap.write [[Value.num 1], [Value.num 1]] 0 [])
        ⟨.null, .null, .null, some 1⟩ =
      AddedBeforeMessageH.fieldsValue [[Value.num 1], [Value.num 1]]
        ⟨.null, .null, .null, some 1⟩ ∧
    (ChangedMessageH.clearedValue
          (Heap.write [[Value.num 1], [Value.num 1], [Value.num 1]] 0 [])
          ⟨.null, .null, some 1, some 2⟩ =
        ChangedMessageH.clearedValue [[Value.num 1], [Value.num 1], [Value.num 1]]
          ⟨.null, .null, some 1, some 2⟩ ∧
      ChangedMessageH.fieldsValue
          (Heap.write [[Value.num 1], [Value.num 1], [Value.num 1]] 0 [])
          ⟨.null, .null, some 1, some 2⟩ =
        ChangedMessageH.fieldsValue [[Value.num 1], [Value.num 1], [Value.num 1]]
          ⟨.null, .null, some 1, some 2⟩) ∧
    ReadyMessageH.subsValue (Heap.write [[Value.num 1], [Value.num 1]] 0 []) ⟨some 1⟩ =
      ReadyMessageH.subsValue [[Value.num 1], [Value.num 1]] ⟨some 1⟩ ∧
    UpdatedMessageH.methodsValue (Heap.write [[Value.num 1], [Value.num 1]] 0 [])
        ⟨some 1⟩ =
      UpdatedMessageH.methodsValue [[Value.num 1], [Value.num 1]] ⟨some 1⟩ ∧
    MethodMessageH.paramsValue (Heap.write [[Value.num 1], [Value.num 1]] 1 [])
        ⟨.null, .null, some 0⟩ =
      MethodMessageH.paramsValue [[Value.num 1], [Value.num 1]] ⟨.null, .null, some 0⟩ ∧
    AddedMessageH.fieldsValue (Heap.write [[Value.num 1], [Value.num 1]] 1 [])
        ⟨.null, .null, some 0⟩ =
      AddedMessageH.fieldsValue [[Value.num 1], [Value.num 1]] ⟨.null, .null, some 0⟩ ∧
    AddedBeforeMessageH.fieldsValue (Heap.write [[Value.num 1], [Value.num 1]] 1 [])
        ⟨.null, .null, .null, some 0⟩ =
      AddedBeforeMessageH.fieldsValue [[Value.num 1], [Value.num 1]]
        ⟨.null, .null, .null, some 0⟩ ∧
    ChangedMessageH.clearedValue (Heap.write [[Value.num 1], [Value.num 1]] 1 [])
        ⟨.null, .null, some 0, none⟩ =
      ChangedMessageH.clearedValue [[Value.num 1], [Value.num 1]]
        ⟨.null, .null, some 0, none⟩ ∧
    ChangedMessageH.fieldsValue (Heap.write [[Value.num 1], [Value.num 1]] 1 [])
        ⟨.null, .null, none, some 0⟩ =
      ChangedMessageH.fieldsValue [[Value.num 1], [Value.num 1]]
        ⟨.null, .null, none, some 0⟩ ∧
    ReadyMessageH.subsValue (Heap.write [[Value.num 1], [Value.num 1]] 1 []) ⟨some 0⟩ =
      ReadyMessageH.subsValue [[Value.num 1], [Value.num 1]] ⟨some 0⟩ ∧
    UpdatedMessageH.methodsValue (Heap.write [[Value.num 1], [Value.num 1]] 1 [])
        ⟨some 0⟩ =
      UpdatedMessageH.methodsValue [[Value.num 1], [Value.num 1]] ⟨some 0⟩ ∧
    (⟨.null, .null, some 3⟩ : SubMessageH)._params = some 3 ∧
    (⟨.null, some 4, .null⟩ : ConnectMessageH)._support = some 4 ∧
    (ErrorMessageH.offendingPodValue (Heap.write [[Value.num 1]] 0 [Value.num 2])
          (ErrorMessageH.init .null (some 0)) = some [Value.num 2] ∧
      ErrorMessageH.offendingPodAcc (ErrorMessageH.init .null (some 0)) = some 0) ∧
    (NosubMessageH.errorValue (Heap.write [[Value.num 1]] 0 [Value.num 2])
          (NosubMessageH.init .null (some 0)) = some [Value.num 2] ∧
      NosubMessageH.errorAcc (NosubMessageH.init .null (some 0)) = .ok 0) ∧
    (∃ m, ResultMessageH.init .null (some 0) none = .ok m ∧
      ResultMessageH.errorAcc m = .ok 0 ∧
      ResultMessageH.errorValue (Heap.write [[Value.num 1]] 0 [Value.num 2]) m =
        some [Value.num 2]) := by
  obtain ⟨c1, c2, c3, c4, c5, c6, c7, c8, c9, c10, c11, c12, c13, c14, c15, c16, c17,
    c18, c19, c20⟩ := claim_C5_defensive_copy_amended
  exact ⟨c1 [[Value.num 1]] .null .null 0 (by decide)
      [[Value.num 1], [Value.num 1]] ⟨.null, .null, some 1⟩ [] rfl,
    c2 [[Value.num 1]] .null .null 0 (by decide)
      [[Value.num 1], [Value.num 1]] ⟨.null, .null, some 1⟩ [] rfl,
    c3 [[Value.num 1]] (.str "v") .null 0 (by decide)
      [[Value.num 1], [Value.num 1]] ⟨.str "v", some 1, .null⟩ [] rfl,
    c4 [[Value.num 1]] .null .null 0 (by decide)
      [[Value.num 1], [Value.num 1]] ⟨.null, .null, some 1⟩ [] rfl,
    c5 [[Value.num 1]] .null .null .null 0 (by decide)
      [[Value.num 1], [Value.num 1]] ⟨.null, .null, .null, some 1⟩ [] rfl,
    c6 [[Value.num 1]] .null .null 0 0 (by decide) (by decide)
      [[Value.num 1], [Value.num 1], [Value.num 1]] ⟨.null, .null, some 1, some 2⟩
      0 [] rfl (Or.inl rfl),
    c7 [[Value.num 1]] 0 (by decide) [[Value.num 1], [Value.num 1]] ⟨some 1⟩ [] rfl,
    c8 [[Value.num 1]] 0 (by decide) [[Value.num 1], [Value.num 1]] ⟨some 1⟩ [] rfl,
    c9 [[Value.num 1]] ⟨.null, .null, some 0⟩ 0 rfl (by decide)
      [[Value.num 1], [Value.num 1]] 1 [] rfl,
    c10 [[Value.num 1]] ⟨.null, .null, some 0⟩ 0 rfl (by decide)
      [[Value.num 1], [Value.num 1]] 1 [] rfl,
    c11 [[Value.num 1]] ⟨.null, .null, .null, some 0⟩ 0 rfl (by decide)
      [[Value.num 1], [Value.num 1]] 1 [] rfl,
    c12 [[Value.num 1]] ⟨.null, .null, some 0, none⟩ 0 rfl (by decide)
      [[Value.num 1], [Value.num 1]] 1 [] rfl,
    c13 [[Value.num 1]] ⟨.null, .null, none, some 0⟩ 0 rfl (by decide)
      [[Value.num 1], [Value.num 1]] 1 [] rfl,
    c14 [[Value.num 1]] ⟨some 0⟩ 0 rfl (by decide)
      [[Value.num 1], [Value.num 1]] 1 [] rfl,
    c15 [[Value.num 1]] ⟨some 0⟩ 0 rfl (by decide)
      [[Value.num 1], [Value.num 1]] 1 [] rfl,
    c16 ⟨.null, .null, some 3⟩ 3 rfl,
    c17 ⟨.null, some 4, .null⟩ 4 rfl,
    c18 [[Value.num 1]] .null 0 [Value.num 2] (by decide),
    c19 [[Value.num 1]] .null 0 [Value.num 2] (by decide),
    c20 [[Value.num 1]] .null 0 [Value.num 2] (by decide)⟩

/-! ## Required-key tables at each registered discriminant -/

theorem clientRequiredKeys_connect :
    clientRequiredKeys (.str "connect") = ["version"] := rfl

theorem clientRequiredKeys_method :
    clientRequiredKeys (.str "method") = ["id", "method", "params"] := rfl

theorem clientRequiredKeys_sub :
    clientRequiredKeys (.str "sub") = ["id", "name"] := rfl

theorem clientRequiredKeys_unsub :
    clientRequiredKeys (.str "unsub") = ["id"] := rfl

theorem serverRequiredKeys_added :
    serverRequiredKeys (.str "added") = ["collection", "id"] := rfl

theorem serverRequiredKeys_addedBefore :
    serverRequiredKeys (.str "addedBefore") = ["collection", "id", "before"] := rfl

theorem serverRequiredKeys_changed :
    serverRequiredKeys (.str "changed") = ["collection", "id"] := rfl

theorem serverRequiredKeys_connected :
    serverRequiredKeys (.str "connected") = ["session"] := rfl

theorem serverRequiredKeys_error :
    serverRequiredKeys (.str "error") = ["reason", "offendingMessage"] := rfl

theorem serverRequiredKeys_failed :
    serverRequiredKeys (.str "failed") = ["version"] := rfl

theorem serverRequiredKeys_movedBefore :
    serverRequiredKeys (.str "movedBefore") = ["collection", "id", "before"] := rfl

theorem serverRequiredKeys_nosub :
    serverRequiredKeys (.str "nosub") = ["id"] := rfl

theorem serverRequiredKeys_ready :
    serverRequiredKeys (.str "ready") = ["subs"] := rfl

theorem serverRequiredKeys_removed :
    serverRequiredKeys (.str "removed") = ["collection", "id"] := rfl

theorem serverRequiredKeys_result :
    serverRequiredKeys (.str "result") = ["id"] := rfl

theorem serverRequiredKeys_updated :
    serverRequiredKeys (.str "updated") = ["methods"] := rfl

/-! ## Missing required fields, per registered discriminant -/

theorem missingKey_connect {p : Pod} (hmsg : podLookup p "msg" = some (.str "connect"))
    (hex : ∃ k ∈ clientRequiredKeys (.str "connect"), podLookup p k = none) :
    ∃ k ∈ clientRequiredKeys (.str "connect"), podLookup p k = none ∧
      ClientMessageFactory.create p = .error (.keyError (.str k)) := by
  have hcr : ClientMessageFactory.create p = ConnectMessageFactory.create p := by
    simp [ClientMessageFactory.create, podIndex, hmsg, dispatch_connect]
  obtain ⟨k, hk, hkn⟩ := hex
  simp [clientRequiredKeys_connect] at hk
  subst hk
  exact ⟨"version", by simp [clientRequiredKeys_connect], hkn,
    by simp [hcr, ConnectMessageFactory.create, podIndex, hkn]⟩

theorem missingKey_method {p : Pod} (hmsg : podLookup p "msg" = some (.str "method"))
    (hex : ∃ k ∈ clientRequiredKeys (.str "method"), podLookup p k = none) :
    ∃ k ∈ clientRequiredKeys (.str "method"), podLookup p k = none ∧
      ClientMessageFactory.create p = .error (.keyError (.str k)) := by
  have hcr : ClientMessageFactory.create p = MethodMessageFactory.create p := by
    simp [ClientMessageFactory.create, podIndex, hmsg, dispatch_method]
  by_cases h1 : podLookup p "id" = none
  · exact ⟨"id", by simp [clientRequiredKeys_method], h1, by simp [hcr, MethodMessageFactory.create, podIndex, h1]⟩
  · obtain ⟨v1, hv1⟩ := Option.ne_none_iff_exists'.mp h1
    by_cases h2 : podLookup p "method" = none
    · exact ⟨"method", by simp [clientRequiredKeys_method], h2,
        by simp [hcr, MethodMessageFactory.create, podIndex, hv1, h2]⟩
    · obtain ⟨v2, hv2⟩ := Option.ne_none_iff_exists'.mp h2
      by_cases h3 : podLookup p "params" = none
      · exact ⟨"params", by simp [clientRequiredKeys_method], h3,
          by simp [hcr, MethodMessageFactory.create, podIndex, hv1, hv2, h3]⟩
      · obtain ⟨k, hk, hkn⟩ := hex
        simp [clientRequiredKeys_method] at hk
        rcases hk with rfl | rfl | rfl
        · exact absurd hkn h1
        · exact absurd hkn h2
        · exact absurd hkn h3

theorem missingKey_sub {p : Pod} (hmsg : podLookup p "msg" = some (.str "sub"))
    (hex : ∃ k ∈ clientRequiredKeys (.str "sub"), podLookup p k = none) :
    ∃ k ∈ clientRequiredKeys (.str "sub"), podLookup p k = none ∧
      ClientMessageFactory.create p = .error (.keyError (.str k)) := by
  have hcr : ClientMessageFactory.create p = SubMessageFactory.create p := by
    simp [ClientMessageFactory.create, podIndex, hmsg, dispatch_sub]
  by_cases h1 : podLookup p "id" = none
  · exact ⟨"id", by simp [clientRequiredKeys_sub], h1, by simp [hcr, SubMessageFactory.create, podIndex, h1]⟩
  · obtain ⟨v1, hv1⟩ := Option.ne_none_iff_exists'.mp h1
    by_cases h2 : podLookup p "name" = none
    · exact ⟨"name", by simp [clientRequiredKeys_sub], h2,
        by simp [hcr, SubMessageFactory.create, podIndex, hv1, h2]⟩
    · obtain ⟨k, hk, hkn⟩ := hex
      simp [clientRequiredKeys_sub] at hk
      rcases hk with rfl | rfl
      · exact absurd hkn h1
      · exact absurd hkn h2

theorem missingKey_unsub {p : Pod} (hmsg : podLookup p "msg" = some (.str "unsub"))
    (hex : ∃ k ∈ clientRequiredKeys (.str "unsub"), podLookup p k = none) :
    ∃ k ∈ clientRequiredKeys (.str "unsub"), podLookup p k = none ∧
      ClientMessageFactory.create p = .error (.keyError (.str k)) := by
  have hcr : ClientMessageFactory.create p = UnsubMessageFactory.create p := by
    simp [ClientMessageFactory.create, podIndex, hmsg, dispatch_unsub]
  obtain ⟨k, hk, hkn⟩ := hex
  simp [clientRequiredKeys_unsub] at hk
  subst hk
  exact ⟨"id", by simp [clientRequiredKeys_unsub], hkn, by simp [hcr, UnsubMessageFactory.create, podIndex, hkn]⟩

theorem missingKey_added {p : Pod} (hmsg : podLookup p "msg" = some (.str "added"))
    (hex : ∃ k ∈ serverRequiredKeys (.str "added"), podLookup p k = none) :
    ∃ k ∈ serverRequiredKeys (.str "added"), podLookup p k = none ∧
      ServerMessageFactory.create p = .error (.keyError (.str k)) := by
  have hcr : ServerMessageFactory.create p = AddedMessageFactory.create p := by
    simp [ServerMessageFactory.create, podIndex, hmsg, dispatch_added]
  by_cases h1 : podLookup p "collection" = none
  · exact ⟨"collection", by simp [serverRequiredKeys_added], h1,
      by simp [hcr, AddedMessageFactory.create, podIndex, h1]⟩
  · obtain ⟨v1, hv1⟩ := Option.ne_none_iff_exists'.mp h1
    by_cases h2 : podLookup p "id" = none
    · exact ⟨"id", by simp [serverRequiredKeys_added], h2,
        by simp [hcr, AddedMessageFactory.create, podIndex, hv1, h2]⟩
    · obtain ⟨k, hk, hkn⟩ := hex
      simp [serverRequiredKeys_added] at hk
      rcases hk with rfl | rfl
      · exact absurd hkn h1
      · exact absurd hkn h2

theorem missingKey_addedBefore {p : Pod}
    (hmsg : podLookup p "msg" = some (.str "addedBefore"))
    (hex : ∃ k ∈ serverRequiredKeys (.str "addedBefore"), podLookup p k = none) :
    ∃ k ∈ serverRequiredKeys (.str "addedBefore"), podLookup p k = none ∧
      ServerMessageFactory.create p = .error (.keyError (.str k)) := by
  have hcr : ServerMessageFactory.create p = AddedBeforeMessageFactory.create p := by
    simp [ServerMessageFactory.create, podIndex, hmsg, dispatch_addedBefore]
  by_cases h1 : podLookup p "collection" = none
  · exact ⟨"collection", by simp [serverRequiredKeys_addedBefore], h1,
      by simp [hcr, AddedBeforeMessageFactory.create, podIndex, h1]⟩
  · obtain ⟨v1, hv1⟩ := Option.ne_none_iff_exists'.mp h1
    by_cases h2 : podLookup p "id" = none
    · exact ⟨"id", by simp [serverRequiredKeys_addedBefore], h2,
        by simp [hcr, AddedBeforeMessageFactory.create, podIndex, hv1, h2]⟩
    · obtain ⟨v2, hv2⟩ := Option.ne_none_iff_exists'.mp h2
      by_cases h3 : podLookup p "before" = none
      · exact ⟨"before", by simp [serverRequiredKeys_addedBefore], h3,
          by simp [hcr, AddedBeforeMessageFactory.create, podIndex, hv1, hv2, h3]⟩
      · obtain ⟨k, hk, hkn⟩ := hex
        simp [serverRequiredKeys_addedBefore] at hk
        rcases hk with rfl | rfl | rfl
        · exact absurd hkn h1
        · exact absurd hkn h2
        · exact absurd hkn h3

theorem missingKey_changed {p : Pod} (hmsg : podLookup p "msg" = some (.str "changed"))
    (hex : ∃ k ∈ serverRequiredKeys (.str "changed"), podLookup p k = none) :
    ∃ k ∈ serverRequiredKeys (.str "changed"), podLookup p k = none ∧
      ServerMessageFactory.create p = .error (.keyError (.str k)) := by
  have hcr : ServerMessageFactory.create p = ChangedMessageFactory.create p := by
    simp [ServerMessageFactory.create, podIndex, hmsg, dispatch_changed]
  by_cases h1 : podLookup p "collection" = none
  · exact ⟨"collection", by simp [serverRequiredKeys_changed], h1,
      by simp [hcr, ChangedMessageFactory.create, podIndex, h1]⟩
  · obtain ⟨v1, hv1⟩ := Option.ne_none_iff_exists'.mp h1
    by_cases h2 : podLookup p "id" = none
    · exact ⟨"id", by simp [serverRequiredKeys_changed], h2,
        by simp [hcr, ChangedMessageFactory.create, podIndex, hv1, h2]⟩
    · obtain ⟨k, hk, hkn⟩ := hex
      simp [serverRequiredKeys_changed] at hk
      rcases hk with rfl | rfl
      · exact absurd hkn h1
      · exact absurd hkn h2

theorem missingKey_connected {p : Pod}
    (hmsg : podLookup p "msg" = some (.str "connected"))
    (hex : ∃ k ∈ serverRequiredKeys (.str "connected"), podLookup p k = none) :
    ∃ k ∈ serverRequiredKeys (.str "connected"), podLookup p k = none ∧
      ServerMessageFactory.create p = .error (.keyError (.str k)) := by
  have hcr : ServerMessageFactory.create p = ConnectedMessageFactory.create p := by
    simp [ServerMessageFactory.create, podIndex, hmsg, dispatch_connected]
  obtain ⟨k, hk, hkn⟩ := hex
  simp [serverRequiredKeys_connected] at hk
  subst hk
  exact ⟨"session", by simp [serverRequiredKeys_connected], hkn,
    by simp [hcr, ConnectedMessageFactory.create, podIndex, hkn]⟩

theorem missingKey_error {p : Pod} (hmsg : podLookup p "msg" = some (.str "error"))
    (hex : ∃ k ∈ serverRequiredKeys (.str "error"), podLookup p k = none) :
    ∃ k ∈ serverRequiredKeys (.str "error"), podLookup p k = none ∧
      ServerMessageFactory.create p = .error (.keyError (.str k)) := by
  have hcr : ServerMessageFactory.create p = ErrorMessageFactory.create p := by
    simp [ServerMessageFactory.create, podIndex, hmsg, dispatch_error]
  by_cases h1 : podLookup p "reason" = none
  · exact ⟨"reason", by simp [serverRequiredKeys_error], h1,
      by simp [hcr, ErrorMessageFactory.create, podIndex, h1]⟩
  · obtain ⟨v1, hv1⟩ := Option.ne_none_iff_exists'.mp h1
    by_cases h2 : podLookup p "offendingMessage" = none
    · exact ⟨"offendingMessage", by simp [serverRequiredKeys_error], h2,
        by simp [hcr, ErrorMessageFactory.create, podIndex, hv1, h2]⟩
    · obtain ⟨k, hk, hkn⟩ := hex
      simp [serverRequiredKeys_error] at hk
      rcases hk with rfl | rfl
      · exact absurd hkn h1
      · exact absurd hkn h2

theorem missingKey_failed {p : Pod} (hmsg : podLookup p "msg" = some (.str "failed"))
    (hex : ∃ k ∈ serverRequiredKeys (.str "failed"), podLookup p k = none) :
    ∃ k ∈ serverRequiredKeys (.str "failed"), podLookup p k = none ∧
      ServerMessageFactory.create p = .error (.keyError (.str k)) := by
  have hcr : ServerMessageFactory.create p = FailedMessageFactory.create p := by
    simp [ServerMessageFactory.create, podIndex, hmsg, dispatch_failed]
  obtain ⟨k, hk, hkn⟩ := hex
  simp [serverRequiredKeys_failed] at hk
  subst hk
  exact ⟨"version", by simp [serverRequiredKeys_failed], hkn,
    by simp [hcr, FailedMessageFactory.create, podIndex, hkn]⟩

theorem missingKey_movedBefore {p : Pod}
    (hmsg : podLookup p "msg" = some (.str "movedBefore"))
    (hex : ∃ k ∈ serverRequiredKeys (.str "movedBefore"), podLookup p k = none) :
    ∃ k ∈ serverRequiredKeys (.str "movedBefore"), podLookup p k = none ∧
      ServerMessageFactory.create p = .error (.keyError (.str k)) := by
  have hcr : ServerMessageFactory.create p = MovedBeforeMessageFactory.create p := by
    simp [ServerMessageFactory.create, podIndex, hmsg, dispatch_movedBefore]
  by_cases h1 : podLookup p "collection" = none
  · exact ⟨"collection", by simp [serverRequiredKeys_movedBefore], h1,
      by simp [hcr, MovedBeforeMessageFactory.create, podIndex, h1]⟩
  · obtain ⟨v1, hv1⟩ := Option.ne_none_iff_exists'.mp h1
    by_cases h2 : podLookup p "id" = none
    · exact ⟨"id", by simp [serverRequiredKeys_movedBefore], h2,
        by simp [hcr, MovedBeforeMessageFactory.create, podIndex, hv1, h2]⟩
    · obtain ⟨v2, hv2⟩ := Option.ne_none_iff_exists'.mp h2
      by_cases h3 : podLookup p "before" = none
      · exact ⟨"before", by simp [serverRequiredKeys_movedBefore], h3,
          by simp [hcr, MovedBeforeMessageFactory.create, podIndex, hv1, hv2, h3]⟩
      · obtain ⟨k, hk, hkn⟩ := hex
        simp [serverRequiredKeys_movedBefore] at hk
        rcases hk with rfl | rfl | rfl
        · exact absurd hkn h1
        · exact absurd hkn h2
        · exact absurd hkn h3

theorem missingKey_nosub {p : Pod} (hmsg : podLookup p "msg" = some (.str "nosub"))
    (hex : ∃ k ∈ serverRequiredKeys (.str "nosub"), podLookup p k = none) :
    ∃ k ∈ serverRequiredKeys (.str "nosub"), podLookup p k = none ∧
      ServerMessageFactory.create p = .error (.keyError (.str k)) := by
  have hcr : ServerMessageFactory.create p = NosubMessageFactory.create p := by
    simp [ServerMessageFactory.create, podIndex, hmsg, dispatch_nosub]
  obtain ⟨k, hk, hkn⟩ := hex
  simp [serverRequiredKeys_nosub] at hk
  subst hk
  exact ⟨"id", by simp [serverRequiredKeys_nosub], hkn, by simp [hcr, NosubMessageFactory.create, podIndex, hkn]⟩

theorem missingKey_ready {p : Pod} (hmsg : podLookup p "msg" = some (.str "ready"))
    (hex : ∃ k ∈ serverRequiredKeys (.str "ready"), podLookup p k = none) :
    ∃ k ∈ serverRequiredKeys (.str "ready"), podLookup p k = none ∧
      ServerMessageFactory.create p = .error (.keyError (.str k)) := by
  have hcr : ServerMessageFactory.create p = ReadyMessageFactory.create p := by
    simp [ServerMessageFactory.create, podIndex, hmsg, dispatch_ready]
  obtain ⟨k, hk, hkn⟩ := hex
  simp [serverRequiredKeys_ready] at hk
  subst hk
  exact ⟨"subs", by simp [serverRequiredKeys_ready], hkn, by simp [hcr, ReadyMessageFactory.create, podIndex, hkn]⟩

theorem missingKey_removed {p : Pod} (hmsg : podLookup p "msg" = some (.str "removed"))
    (hex : ∃ k ∈ serverRequiredKeys (.str "removed"), podLookup p k = none) :
    ∃ k ∈ serverRequiredKeys (.str "removed"), podLookup p k = none ∧
      ServerMessageFactory.create p = .error (.keyError (.str k)) := by
  have hcr : ServerMessageFactory.create p = RemoveMessageFactory.create p := by
    simp [ServerMessageFactory.create, podIndex, hmsg, dispatch_removed]
  by_cases h1 : podLookup p "collection" = none
  · exact ⟨"collection", by simp [serverRequiredKeys_removed], h1,
      by simp [hcr, RemoveMessageFactory.create, podIndex, h1]⟩
  · obtain ⟨v1, hv1⟩ := Option.ne_none_iff_exists'.mp h1
    by_cases h2 : podLookup p "id" = none
    · exact ⟨"id", by simp [serverRequiredKeys_removed], h2,
        by simp [hcr, RemoveMessageFactory.create, podIndex, hv1, h2]⟩
    · obtain ⟨k, hk, hkn⟩ := hex
      simp [serverRequiredKeys_removed] at hk
      rcases hk with rfl | rfl
      · exact absurd hkn h1
      · exact absurd hkn h2

theorem missingKey_result {p : Pod} (hmsg : podLookup p "msg" = some (.str "result"))
    (hex : ∃ k ∈ serverRequiredKeys (.str "result"), podLookup p k = none) :
    ∃ k ∈ serverRequiredKeys (.str "result"), podLookup p k = none ∧
      ServerMessageFactory.create p = .error (.keyError (.str k)) := by
  have hcr : ServerMessageFactory.create p = ResultMessageFactory.create p := by
    simp [ServerMessageFactory.create, podIndex, hmsg, dispatch_result]
  obtain ⟨k, hk, hkn⟩ := hex
  simp [serverRequiredKeys_result] at hk
  subst hk
  exact ⟨"id", by simp [serverRequiredKeys_result], hkn, by simp [hcr, ResultMessageFactory.create, podIndex, hkn]⟩

theorem missingKey_updated {p : Pod} (hmsg : podLookup p "msg" = some (.str "updated"))
    (hex : ∃ k ∈ serverRequiredKeys (.str "updated"), podLookup p k = none) :
    ∃ k ∈ serverRequiredKeys (.str "updated"), podLookup p k = none ∧
      ServerMessageFactory.create p = .error (.keyError (.str k)) := by
  have hcr : ServerMessageFactory.create p = UpdatedMessageFactory.create p := by
    simp [ServerMessageFactory.create, podIndex, hmsg, dispatch_updated]
  obtain ⟨k, hk, hkn⟩ := hex
  simp [serverRequiredKeys_updated] at hk
  subst hk
  exact ⟨"methods", by simp [serverRequiredKeys_updated], hkn,
    by simp [hcr, UpdatedMessageFactory.create, podIndex, hkn]⟩


/-- **C7** counterexample: the decode error for a missing required field
does not name the message kind — a `method` pod and an `unsub` pod, both
lacking `id`, produce the identical `KeyError('id')`. -/
theorem claim_C7_counterexample :
    ClientMessageFactory.create [("msg", .str "method")] = .error (.keyError (.str "id")) ∧
    ClientMessageFactory.create [("msg", .str "unsub")] = .error (.keyError (.str "id")) ∧
    (Value.str "method") ≠ .str "unsub" :=
  ⟨rfl, rfl, by decide⟩

/-- **C7** (amended): an unregistered discriminant (inbound) or an
unregistered concrete class (outbound) fails with the dispatch `KeyError`
carrying the key; a known discriminant with a missing required field fails
with a `KeyError` naming that missing field (the first one the decoder
subscripts) — though not the message kind. -/
theorem claim_C7_classification_amended :
    (∀ (p : Pod) (d : Value), podLookup p "msg" = some d →
        d ∉ clientFactoryTable.map Prod.fst →
        ClientMessageFactory.create p = .error (.keyError d)) ∧
    (∀ (p : Pod) (d : Value), podLookup p "msg" = some d →
        d ∉ serverFactoryTable.map Prod.fst →
        ServerMessageFactory.create p = .error (.keyError d)) ∧
    (∀ m : ServerMessage, PodClientMessageFactory.create (.server m) =
        .error (.typeKeyError (Message.typeName (.server m)))) ∧
    (∀ m : ClientMessage, PodServerMessageFactroy.create (.client m) =
        .error (.typeKeyError (Message.typeName (.client m)))) ∧
    (∀ (p : Pod) (d : Value), podLookup p "msg" = some d →
        d ∈ clientFactoryTable.map Prod.fst →
        (∃ k ∈ clientRequiredKeys d, podLookup p k = none) →
        ∃ k ∈ clientRequiredKeys d, podLookup p k = none ∧
          ClientMessageFactory.create p = .error (.keyError (.str k))) ∧
    (∀ (p : Pod) (d : Value), podLookup p "msg" = some d →
        d ∈ serverFactoryTable.map Prod.fst →
        (∃ k ∈ serverRequiredKeys d, podLookup p k = none) →
        ∃ k ∈ serverRequiredKeys d, podLookup p k = none ∧
          ServerMessageFactory.create p = .error (.keyError (.str k))) := by
  refine ⟨?_, ?_, fun m => rfl, fun m => rfl, ?_, ?_⟩
  · intro p d hmsg hd
    simp [ClientMessageFactory.create, podIndex, hmsg, assocLookup_eq_none hd]
  · intro p d hmsg hd
    simp [ServerMessageFactory.create, podIndex, hmsg, assocLookup_eq_none hd]
  · intro p d hmsg hreg hex
    simp [clientFactoryTable] at hreg
    rcases hreg with rfl | rfl | rfl | rfl
    · exact missingKey_connect hmsg hex
    · exact missingKey_method hmsg hex
    · exact missingKey_sub hmsg hex
    · exact missingKey_unsub hmsg hex
  · intro p d hmsg hreg hex
    simp [serverFactoryTable] at hreg
    rcases hreg with rfl | rfl | rfl | rfl | rfl | rfl | rfl | rfl | rfl | rfl | rfl | rfl
    · exact missingKey_added hmsg hex
    · exact missingKey_addedBefore hmsg hex
    · exact missingKey_connected hmsg hex
    · exact missingKey_changed hmsg hex
    · exact missingKey_error hmsg hex
    · exact missingKey_failed hmsg hex
    · exact missingKey_movedBefore hmsg hex
    · exact missingKey_nosub hmsg hex
    · exact missingKey_ready hmsg hex
    · exact missingKey_removed hmsg hex
    · exact missingKey_result hmsg hex
    · exact missingKey_updated hmsg hex

/-- **C7** witness: each clause at a concrete pod or message. -/
theorem claim_C7_witness :
    ClientMessageFactory.create [("msg", .str "bogus")] =
      .error (.keyError (.str "bogus")) ∧
    ServerMessageFactory.create [("msg", .num 7)] = .error (.keyError (.num 7)) ∧
    PodClientMessageFactory.create (.server (.failed ⟨.str "2"⟩)) =
      .error (.typeKeyError "FailedMessage") ∧
    PodServerMessageFactroy.create (.client (.unsub ⟨.str "3"⟩)) =
      .error (.typeKeyError "UnsubMessage") ∧
    (∃ k ∈ clientRequiredKeys (.str "method"),
        podLookup [("msg", .str "method")] k = none ∧
        ClientMessageFactory.create [("msg", .str "method")] =
          .error (.keyError (.str k))) ∧
    (∃ k ∈ serverRequiredKeys (.str "added"),
        podLookup [("msg", .str "added")] k = none ∧
        ServerMessageFactory.create [("msg", .str "added")] =
          .error (.keyError (.str k))) := by
  refine ⟨claim_C7_classification_amended.1 [("msg", .str "bogus")] (.str "bogus")
      rfl (by decide),
    claim_C7_classification_amended.2.1 [("msg", .num 7)] (.num 7) rfl (by decide),
    claim_C7_classification_amended.2.2.1 (.failed ⟨.str "2"⟩),
    claim_C7_classification_amended.2.2.2.1 (.unsub ⟨.str "3"⟩),
    claim_C7_classification_amended.2.2.2.2.1 [("msg", .str "method")] (.str "method")
      rfl (by decide) ⟨"id", by simp [clientRequiredKeys_method], rfl⟩,
    claim_C7_classification_amended.2.2.2.2.2 [("msg", .str "added")] (.str "added")
      rfl (by decide) ⟨"collection", by simp [serverRequiredKeys_added], rfl⟩⟩

end Ddp
